import Mathlib

/-!
# NRF24 driver (RP2040) : shallow embedding of `src/NRF24.cpp`

The driver is a C++ class whose methods talk to an nRF24L01 radio through the
pico-sdk primitives `gpio_put`, `spi_write_blocking`, `spi_read_blocking`,
`sleep_us`, `sleep_ms` and `to_ms_since_boot`.  The class fields become the
structure `NRF24`; every method becomes a function that takes the object state
and returns the result together with the new state.

The pico-sdk and the radio chip are not part of the repository.  They are
represented by the structure `Hardware` (the environment):

* the two control lines `csn` and `ce`;
* the bytes clocked out since chip-select fell (`frame`);
* a register file `regs`, holding for every 5-bit register address the data
  bytes of the most recent `W_REGISTER` frame addressed to it;
* the STATUS register is volatile: the value seen by the n-th status read is
  `status_seq n`, an arbitrary sequence chosen by the environment;
* the RX FIFO, a queue of payloads; the width reported by `R_RX_PL_WID` is the
  length of the payload at the head of the queue;
* a microsecond clock advanced by the sleep calls;
* `trace`, the chronological list of every pin change, SPI transfer and sleep.

Machine integers are `Nat`; a reduction modulo `2^w` is written wherever the C
code narrows an arithmetic result into a `uintw_t`.
-/

namespace NRF24Driver

/-! ## Constants of `NRF24.h` -/

def NRF_CONFIG_REGISTER : Nat := 0x00
def NRF_EN_AA_REGISTER : Nat := 0x01
def NRF_EN_RXADDR_REGISTER : Nat := 0x02
def NRF_SETUP_AW_REGISTER : Nat := 0x03
def NRF_SETUP_RETR_REGISTER : Nat := 0x04
def NRF_RF_CH_REGISTER : Nat := 0x05
def NRF_RF_SETUP_REGISTER : Nat := 0x06
def NRF_STATUS_REGISTER : Nat := 0x07
def NRF_RX_ADDR_P0_REGISTER : Nat := 0x0A
def NRF_RX_ADDR_P1_REGISTER : Nat := 0x0B
def NRF_RX_ADDR_P2_REGISTER : Nat := 0x0C
def NRF_RX_ADDR_P3_REGISTER : Nat := 0x0D
def NRF_RX_ADDR_P4_REGISTER : Nat := 0x0E
def NRF_RX_ADDR_P5_REGISTER : Nat := 0x0F
def NRF_TX_ADDR_REGISTER : Nat := 0x10
def NRF_RX_PW_P0_REGISTER : Nat := 0x11
def NRF_RX_PW_P1_REGISTER : Nat := 0x12
def NRF_RX_PW_P2_REGISTER : Nat := 0x13
def NRF_RX_PW_P3_REGISTER : Nat := 0x14
def NRF_RX_PW_P4_REGISTER : Nat := 0x15
def NRF_RX_PW_P5_REGISTER : Nat := 0x16
def NRF_DYNPD_REGISTER : Nat := 0x1C
def NRF_FEATURE_REGISTER : Nat := 0x1D

def NRF_R_REGISTER : Nat := 0x00
def NRF_W_REGISTER : Nat := 0x20
def NRF_R_RX_PAYLOAD : Nat := 0x61
def NRF_W_TX_PAYLOAD : Nat := 0xA0
def NRF_FLUSH_TX : Nat := 0xE1
def NRF_FLUSH_RX : Nat := 0xE2
def NRF_R_RX_PL_WID : Nat := 0x60
def NRF_W_TX_PAYLOAD_NO_ACK : Nat := 0xB0

def NRF_STATUS_RX_DR : Nat := 0x40
def NRF_STATUS_TX_DS : Nat := 0x20
def NRF_STATUS_MAX_RT : Nat := 0x10

def NRF_CONFIG_EN_CRC : Nat := 0x08
def NRF_CONFIG_CRCO : Nat := 0x04
def NRF_CONFIG_PWR_UP : Nat := 0x02

def NRF_FEATURE_EN_DPL : Nat := 0x04

def NRF_MAX_PAYLOAD_SIZE : Nat := 32
def NRF_MAX_ADDR_SIZE : Nat := 5
def NRF_MAX_CHANNEL : Nat := 125
def NRF_MAX_PIPES : Nat := 6

/-- Enumerator `NRF24_ARD_250US` of `enum NRF24_AutoRetransmitDelay`. -/
def NRF24_ARD_250US : Nat := 0

/-- Enumerator `NRF24_POWER_LEVEL_0DBM` of `enum NRF24_PowerLevel`. -/
def NRF24_POWER_LEVEL_0DBM : Nat := 3

/-- Enumerator `NRF24_DATA_RATE_1MBPS` of `enum NRF24_DataRate`. -/
def NRF24_DATA_RATE_1MBPS : Nat := 0

/-- Enumerator `NRF24_CRC_16BIT` of `enum NRF24_CRCLength`. -/
def NRF24_CRC_16BIT : Nat := 2

/-- Enumerator `NRF24_DATA_RATE_2MBPS` of `enum NRF24_DataRate`. -/
def NRF24_DATA_RATE_2MBPS : Nat := 1

/-- Enumerator `NRF24_DATA_RATE_250KBPS` of `enum NRF24_DataRate`. -/
def NRF24_DATA_RATE_250KBPS : Nat := 2

/-- Enumerator `NRF24_ADDR_WIDTH_3BYTES` of `enum NRF24_AddressWidth`. -/
def NRF24_ADDR_WIDTH_3BYTES : Nat := 1

/-- Enumerator `NRF24_ADDR_WIDTH_4BYTES` of `enum NRF24_AddressWidth`. -/
def NRF24_ADDR_WIDTH_4BYTES : Nat := 2

/-- Enumerator `NRF24_ADDR_WIDTH_5BYTES` of `enum NRF24_AddressWidth`. -/
def NRF24_ADDR_WIDTH_5BYTES : Nat := 3

def NRF_RF_SETUP_RF_DR_LOW : Nat := 0x20
def NRF_RF_SETUP_RF_DR_HIGH : Nat := 0x08
def NRF_RF_SETUP_RF_PWR : Nat := 0x06

/-! ## The environment: pins, SPI bus, radio chip, clock -/

/-- One observable action of the driver on its environment. -/
inductive Event where
  | csn (level : Bool)
  | ce (level : Bool)
  | mosi (bytes : List Nat)
  | miso (bytes : List Nat)
  | sleep (us : Nat)
  deriving DecidableEq, Repr

/-- Environment model: the hardware reached through the SPI handle and the
chip-select / chip-enable pins of the driver object. -/
structure Hardware where
  /-- Level of the chip-select line (`true` is high, the bus is idle). -/
  csn : Bool
  /-- Level of the chip-enable line. -/
  ce : Bool
  /-- Bytes clocked out to the chip since chip-select fell. -/
  frame : List Nat
  /-- Register file: data bytes last written to each register address. -/
  regs : Nat → List Nat
  /-- Values of the volatile STATUS register at successive status reads. -/
  status_seq : Nat → Nat
  /-- Number of status reads performed so far. -/
  status_pos : Nat
  /-- Payloads waiting in the RX FIFO, oldest first. -/
  rx_fifo : List (List Nat)
  /-- Microseconds elapsed since boot. -/
  now_us : Nat
  /-- Every pin change, SPI transfer and sleep so far, oldest first. -/
  trace : List Event

namespace Hardware

/-- Width answered by the chip to `R_RX_PL_WID`: the length of the payload at
the head of the RX FIFO, as one byte. -/
def rxPayloadWidth (hw : Hardware) : Nat :=
  match hw.rx_fifo with
  | [] => 0
  | p :: _ => p.length % 256

/-- First `n` bytes of a buffer, zero-filled when the buffer is shorter. -/
def firstBytes (n : Nat) (buf : List Nat) : List Nat :=
  (List.range n).map (fun i => buf.getD i 0 % 256)

/-- Register file after the chip has acted on the completed frame: a
`W_REGISTER` frame with at least one data byte stores its data bytes. -/
def commitRegs (hw : Hardware) : Nat → List Nat :=
  match hw.frame with
  | cmd :: d :: data =>
    if cmd &&& 0xE0 = NRF_W_REGISTER then
      fun r => if r = cmd &&& 0x1F then d :: data else hw.regs r
    else hw.regs
  | _ => hw.regs

/-- RX FIFO after the chip has acted on the completed frame: `FLUSH_RX`
empties it and `R_RX_PAYLOAD` removes the payload that was read. -/
def commitRxFifo (hw : Hardware) : List (List Nat) :=
  match hw.frame with
  | cmd :: _ =>
    if cmd = NRF_FLUSH_RX then []
    else if cmd = NRF_R_RX_PAYLOAD then hw.rx_fifo.tail
    else hw.rx_fifo
  | [] => hw.rx_fifo

/-- Environment model of `gpio_put(csn, level)`: a falling edge opens a frame,
a rising edge closes it and lets the chip act on it. -/
def gpio_put_csn (level : Bool) (hw : Hardware) : Hardware :=
  { hw with
    csn := level
    frame := if hw.csn = level then hw.frame else []
    regs := if !hw.csn && level then hw.commitRegs else hw.regs
    rx_fifo := if !hw.csn && level then hw.commitRxFifo else hw.rx_fifo
    trace := hw.trace ++ [Event.csn level] }

/-- Environment model of `gpio_put(ce, level)`. -/
def gpio_put_ce (level : Bool) (hw : Hardware) : Hardware :=
  { hw with ce := level, trace := hw.trace ++ [Event.ce level] }

/-- Environment model of `spi_write_blocking(spi, src, len)`: the bytes join
the open frame (they are lost when chip-select is high). -/
def spi_write_blocking (src : List Nat) (hw : Hardware) : Hardware :=
  { hw with
    frame := if hw.csn then hw.frame else hw.frame ++ src
    trace := hw.trace ++ [Event.mosi src] }

/-- Bytes the chip shifts out when `len` bytes are read: the answer to the
one-byte command that opened the frame, zeros otherwise. -/
def miso (len : Nat) (hw : Hardware) : List Nat :=
  if hw.csn then List.replicate len 0
  else
    match hw.frame with
    | [cmd] =>
      if cmd = NRF_R_REGISTER ||| NRF_STATUS_REGISTER then
        firstBytes len [hw.status_seq hw.status_pos]
      else if cmd &&& 0xE0 = NRF_R_REGISTER then
        firstBytes len (hw.regs (cmd &&& 0x1F))
      else if cmd = NRF_R_RX_PL_WID then
        firstBytes len [hw.rxPayloadWidth]
      else if cmd = NRF_R_RX_PAYLOAD then
        firstBytes len (hw.rx_fifo.headD [])
      else List.replicate len 0
    | _ => List.replicate len 0

/-- Whether reading `len` bytes now is a read of the STATUS register. -/
def readsStatus (len : Nat) (hw : Hardware) : Bool :=
  !hw.csn && hw.frame == [NRF_R_REGISTER ||| NRF_STATUS_REGISTER] && decide (0 < len)

/-- Environment model of `spi_read_blocking(spi, 0x00, dst, len)`. -/
def spi_read_blocking (len : Nat) (hw : Hardware) : List Nat × Hardware :=
  (hw.miso len,
    { hw with
      status_pos := if hw.readsStatus len then hw.status_pos + 1 else hw.status_pos
      trace := hw.trace ++ [Event.miso (hw.miso len)] })

/-- Environment model of `sleep_us(us)`. -/
def sleep_us (us : Nat) (hw : Hardware) : Hardware :=
  { hw with now_us := hw.now_us + us, trace := hw.trace ++ [Event.sleep us] }

/-- Environment model of `sleep_ms(ms)`. -/
def sleep_ms (ms : Nat) (hw : Hardware) : Hardware :=
  { hw with now_us := hw.now_us + 1000 * ms, trace := hw.trace ++ [Event.sleep (1000 * ms)] }

/-- Environment model of `to_ms_since_boot(get_absolute_time())`, a `uint32_t`. -/
def to_ms_since_boot (hw : Hardware) : Nat :=
  (hw.now_us / 1000) % 2 ^ 32

/-- A chip just after power-on, with an idle bus and empty FIFOs, whose status
reads follow the given sequence. -/
def powerOn (status_seq : Nat → Nat) : Hardware where
  csn := true
  ce := false
  frame := []
  regs := fun _ => [0]
  status_seq := status_seq
  status_pos := 0
  rx_fifo := []
  now_us := 0
  trace := []

/-- The byte the chip will present at the `i`-th status read from now on. -/
def statusAt (hw : Hardware) (i : Nat) : Nat :=
  hw.status_seq (hw.status_pos + i) % 256

/-- Environment event: the radio receives a frame and queues its payload in
the RX FIFO. -/
def received (payload : List Nat) (hw : Hardware) : Hardware :=
  { hw with rx_fifo := hw.rx_fifo ++ [payload] }

end Hardware

/-! ## The driver object -/

/-- The C struct `NRF24_Pipe`. -/
structure NRF24_Pipe where
  address : List Nat
  address_width : Nat
  payload_size : Nat
  auto_ack_enabled : Bool
  dynamic_payload_enabled : Bool

/-- The private fields of `class NRF24`.  The SPI handle and the pin numbers
are replaced by `hw`, the hardware they designate. -/
structure NRF24 where
  hw : Hardware
  status : Nat
  fifo_status : Nat
  payload_size : Nat
  address_width : Nat
  channel : Nat
  tx_power : Nat
  data_rate : Nat
  crc_length : Nat
  auto_retransmit_count : Nat
  auto_retransmit_delay : Nat
  dynamic_payload_enabled : Bool
  auto_ack_enabled : Bool
  is_plus_variant : Bool
  pipes : Nat → NRF24_Pipe
  rx_pipe_enabled : Nat
  tx_address : List Nat
  packets_lost : Nat
  packets_sent : Nat
  packets_received : Nat
  retransmit_count : Nat
  messageLen : Nat

namespace NRF24

/-- The C call `memcpy(dst, src, n)` on byte buffers. -/
def memcpy (dst src : List Nat) (n : Nat) : List Nat :=
  src.take n ++ dst.drop n

/-- The constructor `NRF24::NRF24`, attached to the hardware `hw`. -/
def ctor (hw : Hardware) : NRF24 where
  hw := hw
  status := 0
  fifo_status := 0
  payload_size := 32
  address_width := 5
  channel := 2
  tx_power := NRF24_POWER_LEVEL_0DBM
  data_rate := NRF24_DATA_RATE_1MBPS
  crc_length := NRF24_CRC_16BIT
  auto_retransmit_count := 3
  auto_retransmit_delay := NRF24_ARD_250US
  dynamic_payload_enabled := false
  auto_ack_enabled := true
  is_plus_variant := false
  rx_pipe_enabled := 0
  packets_lost := 0
  packets_sent := 0
  packets_received := 0
  retransmit_count := 0
  pipes := fun _ =>
    { address := List.replicate NRF_MAX_ADDR_SIZE 0
      address_width := 5
      payload_size := 32
      auto_ack_enabled := true
      dynamic_payload_enabled := false }
  tx_address := List.replicate NRF_MAX_ADDR_SIZE 0
  messageLen := 32

/-! ### Pin control (`NRF24.h`) -/

def csnLow (s : NRF24) : NRF24 := { s with hw := s.hw.gpio_put_csn false }
def csnHigh (s : NRF24) : NRF24 := { s with hw := s.hw.gpio_put_csn true }
def ceLow (s : NRF24) : NRF24 := { s with hw := s.hw.gpio_put_ce false }
def ceHigh (s : NRF24) : NRF24 := { s with hw := s.hw.gpio_put_ce true }

/-- The call `sleep_us(us)` seen from the driver object. -/
def sleep_us (us : Nat) (s : NRF24) : NRF24 := { s with hw := s.hw.sleep_us us }

/-- The call `sleep_ms(ms)` seen from the driver object. -/
def sleep_ms (ms : Nat) (s : NRF24) : NRF24 := { s with hw := s.hw.sleep_ms ms }

/-- The call `spi_write_blocking(spi, src, len)` seen from the driver object. -/
def spi_write_blocking (src : List Nat) (s : NRF24) : NRF24 :=
  { s with hw := s.hw.spi_write_blocking src }

/-- The call `spi_read_blocking(spi, 0x00, dst, len)` seen from the driver object. -/
def spi_read_blocking (len : Nat) (s : NRF24) : List Nat × NRF24 :=
  let r := s.hw.spi_read_blocking len
  (r.1, { s with hw := r.2 })

/-! ### Register transaction layer -/

/-- Source function `uint8_t NRF24::readReg(uint8_t reg)`. -/
def readReg (reg : Nat) (s : NRF24) : Nat × NRF24 :=
  let reg := NRF_R_REGISTER ||| (reg &&& 0x1F)
  let s := csnLow s
  let s := spi_write_blocking [reg] s
  let r := spi_read_blocking 1 s
  let result := r.1.headD 0
  let s := csnHigh r.2
  (result, s)

/-- Source function `void NRF24::writeReg(uint8_t reg, uint8_t *data, uint8_t size)`. -/
def writeRegBuf (reg : Nat) (data : List Nat) (size : Nat) (s : NRF24) : NRF24 :=
  let reg := NRF_W_REGISTER ||| (reg &&& 0x1F)
  let s := csnLow s
  let s := spi_write_blocking [reg] s
  let s := spi_write_blocking (data.take size) s
  csnHigh s

/-- Source function `void NRF24::writeReg(uint8_t reg, uint8_t data)`. -/
def writeReg (reg : Nat) (data : Nat) (s : NRF24) : NRF24 :=
  writeRegBuf reg [data] 1 s

/-- Source function `void NRF24::writeCommand(uint8_t cmd)`. -/
def writeCommand (cmd : Nat) (s : NRF24) : NRF24 :=
  let s := csnLow s
  let s := spi_write_blocking [cmd] s
  csnHigh s

def flushTx (s : NRF24) : NRF24 := writeCommand NRF_FLUSH_TX s

def flushRx (s : NRF24) : NRF24 := writeCommand NRF_FLUSH_RX s

def clearInterrupts (s : NRF24) : NRF24 :=
  writeReg NRF_STATUS_REGISTER (NRF_STATUS_RX_DR ||| NRF_STATUS_TX_DS ||| NRF_STATUS_MAX_RT) s

/-- Source function `void NRF24::powerUp()`. -/
def powerUp (s : NRF24) : NRF24 :=
  let r := readReg NRF_CONFIG_REGISTER s
  let config := (r.1 ||| NRF_CONFIG_PWR_UP) % 256
  let s := writeReg NRF_CONFIG_REGISTER config r.2
  sleep_us 1500 s

/-- Bitwise complement narrowed to `uint8_t`: the low byte of `~x`. -/
def not8 (x : Nat) : Nat := 255 - x % 256

/-- Source function `void NRF24::powerDown()`. -/
def powerDown (s : NRF24) : NRF24 :=
  let r := readReg NRF_CONFIG_REGISTER s
  let config := r.1 &&& not8 NRF_CONFIG_PWR_UP
  writeReg NRF_CONFIG_REGISTER config r.2

/-- Source function `void NRF24::setRegisterBit(uint8_t reg, uint8_t bit, bool value)`. -/
def setRegisterBit (reg bit : Nat) (value : Bool) (s : NRF24) : NRF24 :=
  let r := readReg reg s
  let reg_val := if value then (r.1 ||| (1 <<< bit)) % 256 else r.1 &&& not8 (1 <<< bit)
  writeReg reg reg_val r.2

/-- Source function `void NRF24::setModeTX()`. -/
def setModeTX (s : NRF24) : NRF24 :=
  let s := ceLow s
  let s := setRegisterBit NRF_CONFIG_REGISTER 0 false s
  let s := powerUp s
  sleep_us 130 s

/-! ### Reset and the getters it is checked with -/

/-- Source function `void NRF24::reset()`. -/
def reset (s : NRF24) : NRF24 :=
  let s := powerDown s
  let s := sleep_ms 2 s
  let s := writeReg NRF_CONFIG_REGISTER 0x08 s
  let s := writeReg NRF_EN_AA_REGISTER 0x3F s
  let s := writeReg NRF_EN_RXADDR_REGISTER 0x03 s
  let s := writeReg NRF_SETUP_AW_REGISTER 0x03 s
  let s := writeReg NRF_SETUP_RETR_REGISTER 0x03 s
  let s := writeReg NRF_RF_CH_REGISTER 0x02 s
  let s := writeReg NRF_RF_SETUP_REGISTER 0x0E s
  let s := writeReg NRF_STATUS_REGISTER 0x70 s
  let s := flushTx s
  let s := flushRx s
  let s := clearInterrupts s
  let addr_p0_p1_default := [0xE7, 0xE7, 0xE7, 0xE7, 0xE7]
  let addr_p2_default := 0xC2
  let addr_p3_default := 0xC3
  let addr_p4_default := 0xC4
  let addr_p5_default := 0xC5
  let s := writeRegBuf NRF_RX_ADDR_P0_REGISTER addr_p0_p1_default 5 s
  let s := writeRegBuf NRF_RX_ADDR_P1_REGISTER addr_p0_p1_default 5 s
  let s := writeReg NRF_RX_ADDR_P2_REGISTER addr_p2_default s
  let s := writeReg NRF_RX_ADDR_P3_REGISTER addr_p3_default s
  let s := writeReg NRF_RX_ADDR_P4_REGISTER addr_p4_default s
  let s := writeReg NRF_RX_ADDR_P5_REGISTER addr_p5_default s
  let s := writeRegBuf NRF_TX_ADDR_REGISTER addr_p0_p1_default 5 s
  let s := writeReg NRF_RX_PW_P0_REGISTER 0x20 s
  let s := writeReg NRF_RX_PW_P1_REGISTER 0x20 s
  let s := writeReg NRF_RX_PW_P2_REGISTER 0x20 s
  let s := writeReg NRF_RX_PW_P3_REGISTER 0x20 s
  let s := writeReg NRF_RX_PW_P4_REGISTER 0x20 s
  let s := writeReg NRF_RX_PW_P5_REGISTER 0x20 s
  let s := writeReg NRF_FEATURE_REGISTER 0x00 s
  let s := writeReg NRF_DYNPD_REGISTER 0x00 s
  { s with
    payload_size := 32
    address_width := 5
    channel := 2
    dynamic_payload_enabled := false
    auto_ack_enabled := true
    rx_pipe_enabled := 0x03 }

/-- Source function `uint8_t NRF24::getChannel()`. -/
def getChannel (s : NRF24) : Nat × NRF24 :=
  readReg NRF_RF_CH_REGISTER s

/-- Source function `uint8_t NRF24::getPayloadSize()`. -/
def getPayloadSize (s : NRF24) : Nat :=
  s.payload_size

/-- Source function `bool NRF24::isAutoAckEnabled()`. -/
def isAutoAckEnabled (s : NRF24) : Bool :=
  s.auto_ack_enabled

/-- Source function `uint8_t NRF24::getRetryCount()`. -/
def getRetryCount (s : NRF24) : Nat × NRF24 :=
  let r := readReg NRF_SETUP_RETR_REGISTER s
  (r.1 &&& 0x0F, r.2)

/-- Source function `NRF24_AutoRetransmitDelay NRF24::getRetryDelay()`. -/
def getRetryDelay (s : NRF24) : Nat × NRF24 :=
  let r := readReg NRF_SETUP_RETR_REGISTER s
  ((r.1 &&& 0xF0) >>> 4, r.2)

/-! ### Pipes -/

/-- Source function `void NRF24::openReadingPipe(uint8_t pipe, uint8_t *address)`. -/
def openReadingPipe (pipe : Nat) (address : List Nat) (s : NRF24) : NRF24 :=
  if pipe ≥ NRF_MAX_PIPES then s
  else
    let r := readReg NRF_EN_RXADDR_REGISTER s
    let en_rxaddr := (r.1 ||| (1 <<< pipe)) % 256
    let s := writeReg NRF_EN_RXADDR_REGISTER en_rxaddr r.2
    let s :=
      if pipe ≤ 1 then
        writeRegBuf (NRF_RX_ADDR_P0_REGISTER + pipe) address s.address_width s
      else
        writeReg (NRF_RX_ADDR_P0_REGISTER + pipe) (address.getD (s.address_width - 1) 0) s
    let s := writeReg (NRF_RX_PW_P0_REGISTER + pipe) s.payload_size s
    { s with
      pipes := fun i =>
        if i = pipe then
          { s.pipes pipe with
            address := memcpy (s.pipes pipe).address address s.address_width
            address_width := s.address_width
            payload_size := s.payload_size }
        else s.pipes i
      rx_pipe_enabled := (s.rx_pipe_enabled ||| (1 <<< pipe)) % 256 }

/-- Source function `void NRF24::setPayloadSize(uint8_t size)`. -/
def setPayloadSize (size : Nat) (s : NRF24) : NRF24 :=
  let size := if size > NRF_MAX_PAYLOAD_SIZE then NRF_MAX_PAYLOAD_SIZE else size
  let s := { s with payload_size := size, messageLen := size }
  (List.range NRF_MAX_PIPES).foldl
    (fun s i =>
      if s.rx_pipe_enabled &&& (1 <<< i) ≠ 0 then
        let s := writeReg (NRF_RX_PW_P0_REGISTER + i) size s
        { s with
          pipes := fun j => if j = i then { s.pipes i with payload_size := size } else s.pipes j }
      else s)
    s

/-! ### Dynamic payloads -/

/-- Source function `void NRF24::enableDynamicPayloads()`. -/
def enableDynamicPayloads (s : NRF24) : NRF24 :=
  let r := readReg NRF_FEATURE_REGISTER s
  let s := writeReg NRF_FEATURE_REGISTER ((r.1 ||| NRF_FEATURE_EN_DPL) % 256) r.2
  let s := writeReg NRF_DYNPD_REGISTER 0x3F s
  { s with dynamic_payload_enabled := true }

/-! ### Transmit engine -/

/-- The polling loop of `NRF24::write`, entered with the local counter
`timeout`.  The Boolean is `true` when the loop condition became false (a status
read showed `TX_DS` or `MAX_RT`) and `false` when the loop body returned on the
deadline, after `flushTx()`. -/
def write_wait (timeout : Nat) (s : NRF24) : Bool × NRF24 :=
  let r := readReg NRF_STATUS_REGISTER s
  if r.1 &&& (NRF_STATUS_TX_DS ||| NRF_STATUS_MAX_RT) ≠ 0 then (true, r.2)
  else
    let s := sleep_us 1 r.2
    let timeout := timeout + 1
    if timeout > 10000 then (false, flushTx s)
    else write_wait timeout s
termination_by 10001 - timeout
decreasing_by all_goals simp_wf; omega

/-- Source function `bool NRF24::write(uint8_t *data, uint8_t len, bool multicast)`.
The two-argument overload `write(data, len)` is `write(data, len, false)`.
The buffer `data` holds at least `len` bytes, of which `len` are sent. -/
def write (data : List Nat) (len : Nat) (multicast : Bool) (s : NRF24) : Bool × NRF24 :=
  if len > NRF_MAX_PAYLOAD_SIZE then (false, s)
  else
    let s := setModeTX s
    let s := clearInterrupts s
    let cmd := if multicast then NRF_W_TX_PAYLOAD_NO_ACK else NRF_W_TX_PAYLOAD
    let s := csnLow s
    let s := spi_write_blocking [cmd] s
    let s := spi_write_blocking (data.take len) s
    let s := csnHigh s
    let s := ceHigh s
    let s := sleep_us 15 s
    let s := ceLow s
    let w := write_wait 0 s
    if w.1 = false then (false, w.2)
    else
      let r := readReg NRF_STATUS_REGISTER w.2
      let status := r.1
      let result := (status &&& NRF_STATUS_TX_DS) != 0
      let s := clearInterrupts r.2
      let s :=
        if result then { s with packets_sent := (s.packets_sent + 1) % 2 ^ 16 }
        else { s with packets_lost := (s.packets_lost + 1) % 2 ^ 16 }
      (result, s)

/-- Source function `void NRF24::startWrite(uint8_t *data, uint8_t len, bool multicast)`. -/
def startWrite (data : List Nat) (len : Nat) (multicast : Bool) (s : NRF24) : NRF24 :=
  if len > NRF_MAX_PAYLOAD_SIZE then s
  else
    let s := setModeTX s
    let s := clearInterrupts s
    let cmd := if multicast then NRF_W_TX_PAYLOAD_NO_ACK else NRF_W_TX_PAYLOAD
    let s := csnLow s
    let s := spi_write_blocking [cmd] s
    let s := spi_write_blocking (data.take len) s
    let s := csnHigh s
    let s := ceHigh s
    let s := sleep_us 15 s
    ceLow s

/-- Elapsed milliseconds `current_time - start_time` in `uint32_t` arithmetic. -/
def elapsed_ms (start_time : Nat) (s : NRF24) : Nat :=
  (s.hw.to_ms_since_boot + 2 ^ 32 - start_time % 2 ^ 32) % 2 ^ 32

/-- The polling loop of `NRF24::writeBlocking`.  `current_time` is the clock
value taken at the end of the previous iteration (or `start_time` on entry),
which is the clock of the state the loop test runs in. -/
def writeBlocking_wait (start_time timeout_ms : Nat) (s : NRF24) : Bool × NRF24 :=
  if elapsed_ms start_time s < timeout_ms % 2 ^ 32 then
    let r := readReg NRF_STATUS_REGISTER s
    let status := r.1
    if status &&& (NRF_STATUS_TX_DS ||| NRF_STATUS_MAX_RT) ≠ 0 then
      let result := (status &&& NRF_STATUS_TX_DS) != 0
      let s := clearInterrupts r.2
      let s :=
        if result then { s with packets_sent := (s.packets_sent + 1) % 2 ^ 16 }
        else { s with packets_lost := (s.packets_lost + 1) % 2 ^ 16 }
      (result, s)
    else
      let s := sleep_us 10 r.2
      writeBlocking_wait start_time timeout_ms s
  else (false, flushTx s)
termination_by (timeout_ms % 2 ^ 32 - elapsed_ms start_time s) * 1000 - s.hw.now_us % 1000
decreasing_by
  all_goals simp_wf
  have hnow : ∀ t : NRF24,
      (sleep_us 10 (readReg NRF_STATUS_REGISTER t).2).hw.now_us = t.hw.now_us + 10 :=
    fun _ => rfl
  simp only [elapsed_ms, Hardware.to_ms_since_boot, hnow, Nat.reducePow] at *
  omega

/-- Source function `bool NRF24::writeBlocking(uint8_t *data, uint8_t len, uint32_t timeout_ms)`.
Its call `startWrite(data, len)` is the two-argument overload, which is
`startWrite(data, len, false)`. -/
def writeBlocking (data : List Nat) (len : Nat) (timeout_ms : Nat) (s : NRF24) : Bool × NRF24 :=
  let s := startWrite data len false s
  let start_time := s.hw.to_ms_since_boot
  writeBlocking_wait start_time timeout_ms s

/-- The bus activity of `startWrite` on an accepted payload, where `config` is
the byte read from CONFIG: switch to TX mode (chip-enable low, clear `PRIM_RX`,
set `PWR_UP`, settle), clear the interrupt flags, send the payload frame and
pulse chip-enable. -/
def txStartTrace (config : Nat) (multicast : Bool) (payload : List Nat) : List Event :=
  [Event.ce false,
    Event.csn false, Event.mosi [0x00], Event.miso [config], Event.csn true,
    Event.csn false, Event.mosi [0x20], Event.mosi [config &&& not8 1], Event.csn true,
    Event.csn false, Event.mosi [0x00], Event.miso [(config &&& not8 1) % 256], Event.csn true,
    Event.csn false, Event.mosi [0x20],
    Event.mosi [((config &&& not8 1) % 256 ||| NRF_CONFIG_PWR_UP) % 256], Event.csn true,
    Event.sleep 1500, Event.sleep 130,
    Event.csn false, Event.mosi [0x27], Event.mosi [0x70], Event.csn true,
    Event.csn false,
    Event.mosi [if multicast then NRF_W_TX_PAYLOAD_NO_ACK else NRF_W_TX_PAYLOAD],
    Event.mosi payload, Event.csn true,
    Event.ce true, Event.sleep 15, Event.ce false]

/-! ### Receive engine -/

/-- Source function `uint8_t NRF24::getDynamicPayloadSize()`. -/
def getDynamicPayloadSize (s : NRF24) : Nat × NRF24 :=
  let s := csnLow s
  let cmd := NRF_R_RX_PL_WID
  let s := spi_write_blocking [cmd] s
  let r := spi_read_blocking 1 s
  let result := r.1.headD 0
  let s := csnHigh r.2
  if result > NRF_MAX_PAYLOAD_SIZE then (0, flushRx s)
  else (result, s)

/-- Source function `uint8_t NRF24::read(uint8_t *data, uint8_t len)`: the returned length,
the bytes stored into `data`, and the new state. -/
def read (len : Nat) (s : NRF24) : Nat × List Nat × NRF24 :=
  let payload_len := len
  let d :=
    if s.dynamic_payload_enabled then
      let r := getDynamicPayloadSize s
      (if r.1 > len then len else r.1, r.2)
    else (payload_len, s)
  let payload_len := d.1
  let s := csnLow d.2
  let cmd := NRF_R_RX_PAYLOAD
  let s := spi_write_blocking [cmd] s
  let r := spi_read_blocking payload_len s
  let s := csnHigh r.2
  let s := writeReg NRF_STATUS_REGISTER NRF_STATUS_RX_DR s
  let s := { s with packets_received := (s.packets_received + 1) % 2 ^ 16 }
  (payload_len, r.1, s)

/-! ### Configuration model -/

/-- Source function `bool NRF24::isChipConnected()`. -/
def isChipConnected (s : NRF24) : Bool × NRF24 :=
  let r := readReg NRF_SETUP_AW_REGISTER s
  let setup_aw := r.1
  ((setup_aw &&& 0x0C) == 0x00 && (setup_aw &&& 0x03) != 0x00, r.2)

/-- Source function `bool NRF24::isConnected()`. -/
def isConnected (s : NRF24) : Bool × NRF24 :=
  isChipConnected s

/-- Source function `void NRF24::setChannel(uint8_t channel)`. -/
def setChannel (channel : Nat) (s : NRF24) : NRF24 :=
  let channel := if channel > NRF_MAX_CHANNEL then NRF_MAX_CHANNEL else channel
  let s := { s with channel := channel }
  writeReg NRF_RF_CH_REGISTER channel s

/-- Source function `void NRF24::setDataRate(NRF24_DataRate rate)`.  The
`switch` has a case for each of the three enumerators and no default. -/
def setDataRate (rate : Nat) (s : NRF24) : NRF24 :=
  let r := readReg NRF_RF_SETUP_REGISTER s
  let rf_setup := r.1 &&& not8 (NRF_RF_SETUP_RF_DR_LOW ||| NRF_RF_SETUP_RF_DR_HIGH)
  let rf_setup :=
    if rate = NRF24_DATA_RATE_250KBPS then (rf_setup ||| NRF_RF_SETUP_RF_DR_LOW) % 256
    else if rate = NRF24_DATA_RATE_1MBPS then rf_setup
    else if rate = NRF24_DATA_RATE_2MBPS then (rf_setup ||| NRF_RF_SETUP_RF_DR_HIGH) % 256
    else rf_setup
  let s := writeReg NRF_RF_SETUP_REGISTER rf_setup r.2
  { s with data_rate := rate % 256 }

/-- Source function `NRF24_DataRate NRF24::getDataRate()`. -/
def getDataRate (s : NRF24) : Nat × NRF24 :=
  let r := readReg NRF_RF_SETUP_REGISTER s
  let rf_setup := r.1
  if rf_setup &&& NRF_RF_SETUP_RF_DR_LOW ≠ 0 then (NRF24_DATA_RATE_250KBPS, r.2)
  else if rf_setup &&& NRF_RF_SETUP_RF_DR_HIGH ≠ 0 then (NRF24_DATA_RATE_2MBPS, r.2)
  else (NRF24_DATA_RATE_1MBPS, r.2)

/-- Source function `void NRF24::setPowerLevel(NRF24_PowerLevel level)`. -/
def setPowerLevel (level : Nat) (s : NRF24) : NRF24 :=
  let r := readReg NRF_RF_SETUP_REGISTER s
  let rf_setup := r.1 &&& not8 NRF_RF_SETUP_RF_PWR
  let rf_setup := (rf_setup ||| (level <<< 1)) % 256
  let s := writeReg NRF_RF_SETUP_REGISTER rf_setup r.2
  { s with tx_power := level % 256 }

/-- Source function `NRF24_PowerLevel NRF24::getPowerLevel()`. -/
def getPowerLevel (s : NRF24) : Nat × NRF24 :=
  let r := readReg NRF_RF_SETUP_REGISTER s
  let rf_setup := r.1
  ((rf_setup &&& NRF_RF_SETUP_RF_PWR) >>> 1, r.2)

/-- Source function `void NRF24::setAddressWidth(NRF24_AddressWidth width)`. -/
def setAddressWidth (width : Nat) (s : NRF24) : NRF24 :=
  let aw := (width + 1) % 256
  let s := writeReg NRF_SETUP_AW_REGISTER aw s
  { s with address_width := (width + 2) % 256 }

/-- Source function `NRF24_AddressWidth NRF24::getAddressWidth()`.  The result
`aw - 1` is computed in `int` and converted to the enumeration, whose
underlying type is a 32-bit unsigned integer; only `aw = 0` wraps. -/
def getAddressWidth (s : NRF24) : Nat × NRF24 :=
  let r := readReg NRF_SETUP_AW_REGISTER s
  let aw := r.1
  ((aw + 2 ^ 32 - 1) % 2 ^ 32, r.2)

/-- Source function `void NRF24::setTxAddress(uint8_t *address)`. -/
def setTxAddress (address : List Nat) (s : NRF24) : NRF24 :=
  let s := writeRegBuf NRF_TX_ADDR_REGISTER address s.address_width s
  let s := writeRegBuf NRF_RX_ADDR_P0_REGISTER address s.address_width s
  { s with tx_address := memcpy s.tx_address address s.address_width }

/-- Source function `void NRF24::getTxAddress(uint8_t *address)`: the content
of the caller's buffer `address` after the call. -/
def getTxAddress (address : List Nat) (s : NRF24) : List Nat :=
  memcpy address s.tx_address s.address_width

/-- Source function `void NRF24::setPayloadSize(uint8_t pipe, uint8_t size)`. -/
def setPayloadSizePipe (pipe size : Nat) (s : NRF24) : NRF24 :=
  if pipe ≥ NRF_MAX_PIPES ∨ size > NRF_MAX_PAYLOAD_SIZE then s
  else
    let s := writeReg (NRF_RX_PW_P0_REGISTER + pipe) size s
    { s with
      pipes := fun j => if j = pipe then { s.pipes pipe with payload_size := size } else s.pipes j }

/-- Source function `uint8_t NRF24::getPayloadSize(uint8_t pipe)`. -/
def getPayloadSizePipe (pipe : Nat) (s : NRF24) : Nat :=
  if pipe ≥ NRF_MAX_PIPES then 0 else (s.pipes pipe).payload_size

/-- Source function `void NRF24::setAutoAck(bool enable)`. -/
def setAutoAck (enable : Bool) (s : NRF24) : NRF24 :=
  let s := if enable then writeReg NRF_EN_AA_REGISTER 0x3F s else writeReg NRF_EN_AA_REGISTER 0x00 s
  { s with auto_ack_enabled := enable }

/-- Source function `void NRF24::setAutoAck(uint8_t pipe, bool enable)`. -/
def setAutoAckPipe (pipe : Nat) (enable : Bool) (s : NRF24) : NRF24 :=
  if pipe ≥ NRF_MAX_PIPES then s
  else
    let r := readReg NRF_EN_AA_REGISTER s
    let en_aa := if enable then (r.1 ||| (1 <<< pipe)) % 256 else r.1 &&& not8 (1 <<< pipe)
    let s := writeReg NRF_EN_AA_REGISTER en_aa r.2
    { s with
      pipes := fun j =>
        if j = pipe then { s.pipes pipe with auto_ack_enabled := enable } else s.pipes j }

/-- Source function `bool NRF24::isAutoAckEnabled(uint8_t pipe)`. -/
def isAutoAckEnabledPipe (pipe : Nat) (s : NRF24) : Bool :=
  if pipe ≥ NRF_MAX_PIPES then false else (s.pipes pipe).auto_ack_enabled

/-- The body of the `for` loop of `setPayloadSize(size)`, for the pipe index
`i` and the already clamped `size`. -/
def setPayloadSizeStep (size : Nat) (s : NRF24) (i : Nat) : NRF24 :=
  if s.rx_pipe_enabled &&& (1 <<< i) ≠ 0 then
    let s := writeReg (NRF_RX_PW_P0_REGISTER + i) size s
    { s with
      pipes := fun j => if j = i then { s.pipes i with payload_size := size } else s.pipes j }
  else s

/-- The byte `setDataRate(rate)` writes to RF_SETUP after reading `rf_setup`
from it. -/
def rfSetupWithRate (rf_setup rate : Nat) : Nat :=
  if rate = NRF24_DATA_RATE_250KBPS then
    (rf_setup &&& not8 (NRF_RF_SETUP_RF_DR_LOW ||| NRF_RF_SETUP_RF_DR_HIGH)
      ||| NRF_RF_SETUP_RF_DR_LOW) % 256
  else if rate = NRF24_DATA_RATE_1MBPS then
    rf_setup &&& not8 (NRF_RF_SETUP_RF_DR_LOW ||| NRF_RF_SETUP_RF_DR_HIGH)
  else if rate = NRF24_DATA_RATE_2MBPS then
    (rf_setup &&& not8 (NRF_RF_SETUP_RF_DR_LOW ||| NRF_RF_SETUP_RF_DR_HIGH)
      ||| NRF_RF_SETUP_RF_DR_HIGH) % 256
  else rf_setup &&& not8 (NRF_RF_SETUP_RF_DR_LOW ||| NRF_RF_SETUP_RF_DR_HIGH)

/-- The byte `setPowerLevel(level)` writes to RF_SETUP after reading `rf_setup`
from it. -/
def rfSetupWithPower (rf_setup level : Nat) : Nat :=
  (rf_setup &&& not8 NRF_RF_SETUP_RF_PWR ||| (level <<< 1)) % 256

/-- The data rate `getDataRate()` decodes from the byte `rf_setup`. -/
def rateOfRfSetup (rf_setup : Nat) : Nat :=
  if rf_setup &&& NRF_RF_SETUP_RF_DR_LOW ≠ 0 then NRF24_DATA_RATE_250KBPS
  else if rf_setup &&& NRF_RF_SETUP_RF_DR_HIGH ≠ 0 then NRF24_DATA_RATE_2MBPS
  else NRF24_DATA_RATE_1MBPS

/-- The power level `getPowerLevel()` decodes from the byte `rf_setup`. -/
def powerOfRfSetup (rf_setup : Nat) : Nat :=
  (rf_setup &&& NRF_RF_SETUP_RF_PWR) >>> 1

/-! ### Sequences of configuration calls -/

/-- Source function `void NRF24::setFrequency(uint16_t frequency_mhz)`. -/
def setFrequency (frequency_mhz : Nat) (s : NRF24) : NRF24 :=
  if frequency_mhz < 2400 ∨ frequency_mhz > 2525 then s
  else
    let channel := (frequency_mhz - 2400) % 256
    setChannel channel s

/-- Source function `void NRF24::closePipe(uint8_t pipe)`. -/
def closePipe (pipe : Nat) (s : NRF24) : NRF24 :=
  if pipe ≥ NRF_MAX_PIPES then s
  else
    let r := readReg NRF_EN_RXADDR_REGISTER s
    let en_rxaddr := r.1 &&& not8 (1 <<< pipe)
    let s := writeReg NRF_EN_RXADDR_REGISTER en_rxaddr r.2
    { s with rx_pipe_enabled := s.rx_pipe_enabled &&& not8 (1 <<< pipe) }

/-- Source function
`void NRF24::config(uint8_t *address, uint8_t channel, uint8_t messageLen)`. -/
def config (address : List Nat) (channel messageLen : Nat) (s : NRF24) : NRF24 :=
  let s := { s with channel := channel, messageLen := messageLen }
  let s := csnHigh s
  let s := ceLow s
  let s := sleep_ms 11 s
  let s := writeReg NRF_CONFIG_REGISTER
    (NRF_CONFIG_EN_CRC ||| NRF_CONFIG_CRCO ||| NRF_CONFIG_PWR_UP) s
  let s := sleep_us 1500 s
  let s := writeReg NRF_EN_AA_REGISTER 0x00 s
  let s := writeReg NRF_SETUP_AW_REGISTER 0x03 s
  let s := writeReg NRF_SETUP_RETR_REGISTER 0x00 s
  let s := writeReg NRF_RF_CH_REGISTER channel s
  let s := writeReg NRF_RF_SETUP_REGISTER 0x0E s
  let s := writeRegBuf NRF_RX_ADDR_P0_REGISTER address 5 s
  let s := writeRegBuf NRF_TX_ADDR_REGISTER address 5 s
  let s := writeReg NRF_RX_PW_P0_REGISTER messageLen s
  let s := setChannel channel s
  let s := setPayloadSize messageLen s
  let s := setAddressWidth NRF24_ADDR_WIDTH_5BYTES s
  let s := setTxAddress address s
  openReadingPipe 0 address s

/-- One call of a public configuration method, with its arguments. -/
inductive ConfigCall where
  | setChannel (channel : Nat)
  | setFrequency (frequency_mhz : Nat)
  | setPayloadSize (size : Nat)
  | setPayloadSizePipe (pipe size : Nat)
  | openReadingPipe (pipe : Nat) (address : List Nat)
  | closePipe (pipe : Nat)
  | reset
  | config (address : List Nat) (channel messageLen : Nat)
  deriving Repr, DecidableEq

/-- The driver after the configuration call `c`. -/
def applyCall (s : NRF24) (c : ConfigCall) : NRF24 :=
  match c with
  | .setChannel channel => setChannel channel s
  | .setFrequency frequency_mhz => setFrequency frequency_mhz s
  | .setPayloadSize size => setPayloadSize size s
  | .setPayloadSizePipe pipe size => setPayloadSizePipe pipe size s
  | .openReadingPipe pipe address => openReadingPipe pipe address s
  | .closePipe pipe => closePipe pipe s
  | .reset => reset s
  | .config address channel messageLen => config address channel messageLen s

/-- The driver after the configuration calls `calls`, made in order. -/
def applyCalls (calls : List ConfigCall) (s : NRF24) : NRF24 :=
  calls.foldl applyCall s

/-- The cached configuration is in range: the cached channel is at most 125,
the device-wide payload size is at most 32 and so is the cached payload size
of each of the six pipes. -/
def cachedInRange (s : NRF24) : Prop :=
  s.channel ≤ NRF_MAX_CHANNEL ∧ s.payload_size ≤ NRF_MAX_PAYLOAD_SIZE ∧
    ∀ i < NRF_MAX_PIPES, (s.pipes i).payload_size ≤ NRF_MAX_PAYLOAD_SIZE

instance (s : NRF24) : Decidable (cachedInRange s) := by
  unfold cachedInRange
  exact inferInstance

/-- A sample sequence of configuration calls with out-of-range arguments. -/
def sampleCalls : List ConfigCall :=
  [.reset, .config [1, 2, 3, 4, 5] 200 77, .openReadingPipe 1 [6, 7, 8, 9, 10],
    .setPayloadSizePipe 1 40, .setPayloadSize 200, .closePipe 0, .setFrequency 2525,
    .setChannel 255]

/-! ## Register transaction layer: what one framed exchange does -/

theorem low5_lt (reg : Nat) : reg &&& 0x1F < 32 :=
  Nat.lt_of_le_of_lt Nat.and_le_right (by decide)

theorem wcmd_facts (x : Nat) (hx : x < 32) :
    (NRF_W_REGISTER ||| x) &&& 0xE0 = NRF_W_REGISTER ∧ (NRF_W_REGISTER ||| x) &&& 0x1F = x ∧
      NRF_W_REGISTER ||| x ≠ NRF_FLUSH_RX ∧ NRF_W_REGISTER ||| x ≠ NRF_R_RX_PAYLOAD := by
  unfold NRF_W_REGISTER NRF_FLUSH_RX NRF_R_RX_PAYLOAD
  interval_cases x <;> decide

theorem rcmd_facts (x : Nat) (hx : x < 32) :
    (NRF_R_REGISTER ||| x) = x ∧ x &&& 0xE0 = NRF_R_REGISTER ∧ x &&& 0x1F = x ∧
      x ≠ NRF_FLUSH_RX ∧ x ≠ NRF_R_RX_PAYLOAD := by
  unfold NRF_R_REGISTER NRF_FLUSH_RX NRF_R_RX_PAYLOAD
  interval_cases x <;> decide

/-- Reading the STATUS register on an idle bus: one framed exchange that
consumes the next value of the status sequence. -/
theorem readReg_status (s : NRF24) (h : s.hw.csn = true) :
    readReg NRF_STATUS_REGISTER s =
      (s.hw.statusAt 0,
        { s with hw := { s.hw with
            csn := true
            frame := []
            status_pos := s.hw.status_pos + 1
            trace := s.hw.trace ++ [Event.csn false, Event.mosi [0x07],
              Event.miso [s.hw.statusAt 0], Event.csn true] } }) := by
  simp +decide [Hardware.statusAt, readReg, csnLow, csnHigh, spi_write_blocking, spi_read_blocking,
    Hardware.gpio_put_csn, Hardware.spi_write_blocking, Hardware.spi_read_blocking,
    Hardware.miso, Hardware.readsStatus, Hardware.commitRegs, Hardware.commitRxFifo,
    Hardware.firstBytes, h, NRF_STATUS_REGISTER, NRF_R_REGISTER, NRF_W_REGISTER,
    NRF_FLUSH_RX, NRF_R_RX_PAYLOAD, List.range_succ]

/-- Reading a configuration register on an idle bus returns the first byte
last written to it and changes nothing on the chip. -/
theorem readReg_reg (reg : Nat) (s : NRF24) (h : s.hw.csn = true) (hreg : reg < 32)
    (hne : reg ≠ NRF_STATUS_REGISTER) :
    readReg reg s =
      ((s.hw.regs reg).getD 0 0 % 256,
        { s with hw := { s.hw with
            csn := true
            frame := []
            trace := s.hw.trace ++ [Event.csn false, Event.mosi [reg],
              Event.miso [(s.hw.regs reg).getD 0 0 % 256], Event.csn true] } }) := by
  have h5 : reg &&& 0x1F = reg := (rcmd_facts reg hreg).2.2.1
  obtain ⟨h1, h2, -, h4, h5'⟩ := rcmd_facts reg hreg
  have h7 : ¬ reg = NRF_R_REGISTER ||| NRF_STATUS_REGISTER := by
    simpa [NRF_R_REGISTER, NRF_STATUS_REGISTER] using hne
  simp +decide [readReg, csnLow, csnHigh, spi_write_blocking, spi_read_blocking,
    Hardware.gpio_put_csn, Hardware.spi_write_blocking, Hardware.spi_read_blocking,
    Hardware.miso, Hardware.readsStatus, Hardware.commitRegs, Hardware.commitRxFifo,
    Hardware.firstBytes, h, h5, h1, h2, h4, h5', h7, List.range_succ]

/-- Writing `size` bytes (at least one) to a register on an idle bus stores
exactly those bytes in the register file. -/
theorem writeRegBuf_eq (reg : Nat) (data : List Nat) (size : Nat) (s : NRF24)
    (h : s.hw.csn = true) (hreg : reg < 32) (hne : data.take size ≠ []) :
    writeRegBuf reg data size s =
      { s with hw := { s.hw with
          csn := true
          frame := []
          regs := fun r => if r = reg then data.take size else s.hw.regs r
          trace := s.hw.trace ++ [Event.csn false, Event.mosi [NRF_W_REGISTER ||| reg],
            Event.mosi (data.take size), Event.csn true] } } := by
  have h5 : reg &&& 0x1F = reg := (rcmd_facts reg hreg).2.2.1
  obtain ⟨h1, h2, h3, h4⟩ := wcmd_facts reg hreg
  obtain ⟨d, ds, hd⟩ : ∃ d ds, data.take size = d :: ds := by
    cases hc : data.take size with
    | nil => exact absurd hc hne
    | cons d ds => exact ⟨d, ds, rfl⟩
  simp +decide [writeRegBuf, csnLow, csnHigh, spi_write_blocking,
    Hardware.gpio_put_csn, Hardware.spi_write_blocking,
    Hardware.commitRegs, Hardware.commitRxFifo, h, h5, h1, h2, h3, h4, hd]

/-- Writing one byte to a register on an idle bus. -/
theorem writeReg_eq (reg data : Nat) (s : NRF24) (h : s.hw.csn = true) (hreg : reg < 32) :
    writeReg reg data s =
      { s with hw := { s.hw with
          csn := true
          frame := []
          regs := fun r => if r = reg then [data] else s.hw.regs r
          trace := s.hw.trace ++ [Event.csn false, Event.mosi [NRF_W_REGISTER ||| reg],
            Event.mosi [data], Event.csn true] } } := by
  have := writeRegBuf_eq reg [data] 1 s h hreg (by simp)
  simpa [writeReg] using this

/-- The flush-TX command on an idle bus: one frame holding the opcode `0xE1`. -/
theorem flushTx_eq (s : NRF24) (h : s.hw.csn = true) :
    flushTx s =
      { s with hw := { s.hw with
          csn := true
          frame := []
          trace := s.hw.trace ++ [Event.csn false, Event.mosi [NRF_FLUSH_TX], Event.csn true] } } := by
  simp +decide [flushTx, writeCommand, csnLow, csnHigh, spi_write_blocking,
    Hardware.gpio_put_csn, Hardware.spi_write_blocking,
    Hardware.commitRegs, Hardware.commitRxFifo, h, NRF_FLUSH_TX, NRF_FLUSH_RX,
    NRF_R_RX_PAYLOAD, NRF_W_REGISTER]

/-- The flush-RX command on an idle bus: one frame holding the opcode `0xE2`,
after which the RX FIFO is empty. -/
theorem flushRx_eq (s : NRF24) (h : s.hw.csn = true) :
    flushRx s =
      { s with hw := { s.hw with
          csn := true
          frame := []
          rx_fifo := []
          trace := s.hw.trace ++ [Event.csn false, Event.mosi [NRF_FLUSH_RX], Event.csn true] } } := by
  simp +decide [flushRx, writeCommand, csnLow, csnHigh, spi_write_blocking,
    Hardware.gpio_put_csn, Hardware.spi_write_blocking,
    Hardware.commitRegs, Hardware.commitRxFifo, h, NRF_FLUSH_RX,
    NRF_R_RX_PAYLOAD, NRF_W_REGISTER]

/-- Clearing the interrupt flags on an idle bus writes `0x70` to STATUS. -/
theorem clearInterrupts_eq (s : NRF24) (h : s.hw.csn = true) :
    clearInterrupts s =
      { s with hw := { s.hw with
          csn := true
          frame := []
          regs := fun r => if r = NRF_STATUS_REGISTER then [0x70] else s.hw.regs r
          trace := s.hw.trace ++ [Event.csn false, Event.mosi [0x27],
            Event.mosi [0x70], Event.csn true] } } := by
  rw [clearInterrupts, writeReg_eq _ _ _ h (by decide)]
  rfl

theorem reset_facts (s : NRF24) (h : s.hw.csn = true) :
    (reset s).hw.csn = true ∧
    (reset s).hw.regs NRF_RF_CH_REGISTER = [0x02] ∧
    (reset s).hw.regs NRF_EN_AA_REGISTER = [0x3F] ∧
    (reset s).hw.regs NRF_SETUP_RETR_REGISTER = [0x03] ∧
    (reset s).hw.regs NRF_SETUP_AW_REGISTER = [0x03] ∧
    (reset s).payload_size = 32 ∧ (reset s).auto_ack_enabled = true ∧
    (reset s).address_width = 5 ∧ (reset s).channel = 2 := by
  simp +decide [reset, powerDown, sleep_ms, Hardware.sleep_ms, readReg_reg, writeReg_eq,
    writeRegBuf_eq, flushTx_eq, flushRx_eq, clearInterrupts_eq, h,
    NRF_CONFIG_REGISTER, NRF_EN_AA_REGISTER, NRF_EN_RXADDR_REGISTER, NRF_SETUP_AW_REGISTER,
    NRF_SETUP_RETR_REGISTER, NRF_RF_CH_REGISTER, NRF_RF_SETUP_REGISTER, NRF_STATUS_REGISTER,
    NRF_RX_ADDR_P0_REGISTER, NRF_RX_ADDR_P1_REGISTER, NRF_RX_ADDR_P2_REGISTER,
    NRF_RX_ADDR_P3_REGISTER, NRF_RX_ADDR_P4_REGISTER, NRF_RX_ADDR_P5_REGISTER,
    NRF_TX_ADDR_REGISTER, NRF_RX_PW_P0_REGISTER, NRF_RX_PW_P1_REGISTER, NRF_RX_PW_P2_REGISTER,
    NRF_RX_PW_P3_REGISTER, NRF_RX_PW_P4_REGISTER, NRF_RX_PW_P5_REGISTER, NRF_DYNPD_REGISTER,
    NRF_FEATURE_REGISTER]

/-! ## The transmit engine -/

/-- The polling loop of `write` leaves on a status read that shows `TX_DS` or
`MAX_RT`: when the reads before the `k`-th show neither flag and the `k`-th shows
one, and the deadline is not reached before, the loop ends after `k + 1` status
reads without timing out. -/
theorem write_wait_found (k : Nat) : ∀ (timeout : Nat) (s : NRF24), s.hw.csn = true →
    timeout + k ≤ 10000 →
    (∀ i < k, s.hw.statusAt i &&& (NRF_STATUS_TX_DS ||| NRF_STATUS_MAX_RT) = 0) →
    s.hw.statusAt k &&& (NRF_STATUS_TX_DS ||| NRF_STATUS_MAX_RT) ≠ 0 →
    ∃ evts, write_wait timeout s =
      (true, { s with hw := { s.hw with
        csn := true
        frame := []
        status_pos := s.hw.status_pos + (k + 1)
        now_us := s.hw.now_us + k
        trace := s.hw.trace ++ evts } }) := by
  induction k with
  | zero =>
    intro timeout s h _ _ hflag
    refine ⟨[Event.csn false, Event.mosi [0x07], Event.miso [s.hw.statusAt 0], Event.csn true], ?_⟩
    rw [write_wait, readReg_status s h]
    simp [hflag]
  | succ k ih =>
    intro timeout s h hk hquiet hflag
    have h0 := hquiet 0 (Nat.succ_pos k)
    rw [write_wait, readReg_status s h]
    have hk1 : ¬ timeout + 1 > 10000 := by omega
    simp only [h0, ne_eq, not_true_eq_false, ↓reduceIte, hk1]
    obtain ⟨evts, he⟩ := ih (timeout + 1)
      (sleep_us 1 { s with hw := { s.hw with
            csn := true
            frame := []
            status_pos := s.hw.status_pos + 1
            trace := s.hw.trace ++ [Event.csn false, Event.mosi [0x07],
              Event.miso [s.hw.statusAt 0], Event.csn true] } })
      rfl (by omega)
      (by
        intro i hi
        have := hquiet (i + 1) (by omega)
        simpa [Hardware.statusAt, sleep_us, Hardware.sleep_us, Nat.add_assoc, Nat.add_comm 1 i]
          using this)
      (by
        simpa [Hardware.statusAt, sleep_us, Hardware.sleep_us, Nat.add_assoc, Nat.add_comm 1 k]
          using hflag)
    refine ⟨[Event.csn false, Event.mosi [0x07], Event.miso [s.hw.statusAt 0], Event.csn true,
      Event.sleep 1] ++ evts, ?_⟩
    rw [he]
    simp [sleep_us, Hardware.sleep_us, Nat.add_assoc, Nat.add_comm 1 k]
    omega

/-- The polling loop of `write` gives up on the deadline: when the next
`n + 1` status reads show neither flag and the counter then passes 10000, the
loop flushes the TX FIFO and reports a timeout. -/
theorem write_wait_timeout (n : Nat) : ∀ (timeout : Nat) (s : NRF24), s.hw.csn = true →
    timeout + (n + 1) = 10001 →
    (∀ i < n + 1, s.hw.statusAt i &&& (NRF_STATUS_TX_DS ||| NRF_STATUS_MAX_RT) = 0) →
    ∃ evts, write_wait timeout s =
      (false, { s with hw := { s.hw with
        csn := true
        frame := []
        status_pos := s.hw.status_pos + (n + 1)
        now_us := s.hw.now_us + (n + 1)
        trace := s.hw.trace ++ evts ++
          [Event.csn false, Event.mosi [NRF_FLUSH_TX], Event.csn true] } }) := by
  induction n with
  | zero =>
    intro timeout s h hk hquiet
    have h0 := hquiet 0 (by omega)
    refine ⟨[Event.csn false, Event.mosi [0x07], Event.miso [s.hw.statusAt 0], Event.csn true,
      Event.sleep 1], ?_⟩
    rw [write_wait, readReg_status s h]
    have hk1 : timeout + 1 > 10000 := by omega
    simp only [h0, ne_eq, not_true_eq_false, ↓reduceIte, hk1]
    rw [flushTx_eq _ rfl]
    simp [sleep_us, Hardware.sleep_us]
  | succ n ih =>
    intro timeout s h hk hquiet
    have h0 := hquiet 0 (by omega)
    rw [write_wait, readReg_status s h]
    have hk1 : ¬ timeout + 1 > 10000 := by omega
    simp only [h0, ne_eq, not_true_eq_false, ↓reduceIte, hk1]
    obtain ⟨evts, he⟩ := ih (timeout + 1)
      (sleep_us 1 { s with hw := { s.hw with
            csn := true
            frame := []
            status_pos := s.hw.status_pos + 1
            trace := s.hw.trace ++ [Event.csn false, Event.mosi [0x07],
              Event.miso [s.hw.statusAt 0], Event.csn true] } })
      rfl (by omega)
      (by
        intro i hi
        have := hquiet (i + 1) (by omega)
        simpa [Hardware.statusAt, sleep_us, Hardware.sleep_us, Nat.add_assoc, Nat.add_comm 1 i]
          using this)
    refine ⟨[Event.csn false, Event.mosi [0x07], Event.miso [s.hw.statusAt 0], Event.csn true,
      Event.sleep 1] ++ evts, ?_⟩
    rw [he]
    simp [sleep_us, Hardware.sleep_us, Nat.add_assoc]
    omega

/-- The payload frame of `write` and `startWrite` on an idle bus: the opcode
and the payload bytes go out in one frame, which changes no register. -/
theorem txPayload_frame (multicast : Bool) (bytes : List Nat) (s : NRF24)
    (h : s.hw.csn = true) :
    csnHigh (spi_write_blocking bytes (spi_write_blocking
        [if multicast then NRF_W_TX_PAYLOAD_NO_ACK else NRF_W_TX_PAYLOAD] (csnLow s))) =
      { s with hw := { s.hw with
          csn := true
          frame := []
          trace := s.hw.trace ++ [Event.csn false,
            Event.mosi [if multicast then NRF_W_TX_PAYLOAD_NO_ACK else NRF_W_TX_PAYLOAD],
            Event.mosi bytes, Event.csn true] } } := by
  cases multicast <;> cases bytes <;>
  simp +decide [csnLow, csnHigh, spi_write_blocking,
    Hardware.gpio_put_csn, Hardware.spi_write_blocking,
    Hardware.commitRegs, Hardware.commitRxFifo, h, NRF_W_TX_PAYLOAD_NO_ACK, NRF_W_TX_PAYLOAD,
    NRF_FLUSH_RX, NRF_R_RX_PAYLOAD, NRF_W_REGISTER]

/-- Effect of `startWrite` on an accepted payload: only the hardware changes.
The bus is idle again, chip-enable is low, CONFIG has `PRIM_RX` cleared and
`PWR_UP` set, STATUS was written `0x70`, no status read was made, and the
trace grows by `txStartTrace`. -/
theorem startWrite_eq (data : List Nat) (len : Nat) (multicast : Bool) (s : NRF24)
    (h : s.hw.csn = true) (hlen : len ≤ 32) :
    startWrite data len multicast s =
      { s with hw := { s.hw with
          csn := true
          ce := false
          frame := []
          regs := fun r =>
            if r = NRF_STATUS_REGISTER then [0x70]
            else if r = NRF_CONFIG_REGISTER then
              [(((s.hw.regs 0).getD 0 0 % 256 &&& not8 1) % 256 ||| NRF_CONFIG_PWR_UP) % 256]
            else s.hw.regs r
          now_us := s.hw.now_us + 1645
          trace := s.hw.trace ++
            txStartTrace ((s.hw.regs 0).getD 0 0 % 256) multicast (data.take len) } } := by
  have hl : ¬ len > NRF_MAX_PAYLOAD_SIZE := by simpa [NRF_MAX_PAYLOAD_SIZE] using hlen
  have hce : (ceLow s).hw.csn = true := h
  simp only [startWrite, hl, ↓reduceIte, setModeTX, setRegisterBit, powerUp]
  rw [readReg_reg _ _ hce (by decide) (by decide)]
  simp only []
  rw [writeReg_eq _ _ _ rfl (by decide), readReg_reg _ _ rfl (by decide) (by decide)]
  simp only []
  rw [writeReg_eq _ _ _ rfl (by decide)]
  rw [clearInterrupts_eq _ rfl, txPayload_frame _ _ _ rfl]
  simp [sleep_us, Hardware.sleep_us, ceLow, ceHigh, Hardware.gpio_put_ce, NRF_CONFIG_REGISTER,
    NRF_STATUS_REGISTER, txStartTrace, NRF_W_REGISTER]
  funext r
  by_cases h7 : r = 7 <;> by_cases h0 : r = 0 <;> simp [h7, h0]

/-- On an accepted payload, `write` is `startWrite` followed by the polling
loop and, unless the loop timed out, the evaluation of one more status read. -/
theorem write_eq_startWrite (data : List Nat) (len : Nat) (multicast : Bool) (s : NRF24)
    (hlen : len ≤ 32) :
    write data len multicast s =
      if (write_wait 0 (startWrite data len multicast s)).1 = false then
        (false, (write_wait 0 (startWrite data len multicast s)).2)
      else
        ((readReg NRF_STATUS_REGISTER (write_wait 0 (startWrite data len multicast s)).2).1
            &&& NRF_STATUS_TX_DS != 0,
          if ((readReg NRF_STATUS_REGISTER (write_wait 0 (startWrite data len multicast s)).2).1
              &&& NRF_STATUS_TX_DS != 0) = true then
            { clearInterrupts
                (readReg NRF_STATUS_REGISTER (write_wait 0 (startWrite data len multicast s)).2).2
              with packets_sent :=
                ((clearInterrupts (readReg NRF_STATUS_REGISTER
                  (write_wait 0 (startWrite data len multicast s)).2).2).packets_sent + 1) % 2 ^ 16 }
          else
            { clearInterrupts
                (readReg NRF_STATUS_REGISTER (write_wait 0 (startWrite data len multicast s)).2).2
              with packets_lost :=
                ((clearInterrupts (readReg NRF_STATUS_REGISTER
                  (write_wait 0 (startWrite data len multicast s)).2).2).packets_lost + 1) % 2 ^ 16 }) := by
  have hl : ¬ len > NRF_MAX_PAYLOAD_SIZE := by simpa [NRF_MAX_PAYLOAD_SIZE] using hlen
  simp only [write, startWrite, hl, ↓reduceIte]

/-- Result of `write` when the `k`-th status read of the poll loop is the
first to show `TX_DS` or `MAX_RT`: the status evaluated is read `k + 1`, the
last frame on the bus is the write of `0x70` to STATUS, and one counter moves. -/
theorem write_found_eq (data : List Nat) (len : Nat) (multicast : Bool) (s : NRF24) (k : Nat)
    (hidle : s.hw.csn = true) (hlen : len ≤ 32) (hk : k ≤ 10000)
    (hquiet : ∀ i < k, s.hw.statusAt i &&& (NRF_STATUS_TX_DS ||| NRF_STATUS_MAX_RT) = 0)
    (hflag : s.hw.statusAt k &&& (NRF_STATUS_TX_DS ||| NRF_STATUS_MAX_RT) ≠ 0) :
    ∃ evts, write data len multicast s =
      (s.hw.statusAt (k + 1) &&& NRF_STATUS_TX_DS != 0,
        { s with
          hw := { s.hw with
            csn := true
            ce := false
            frame := []
            regs := fun r =>
              if r = NRF_STATUS_REGISTER then [0x70]
              else if r = NRF_CONFIG_REGISTER then
                [(((s.hw.regs 0).getD 0 0 % 256 &&& not8 1) % 256 ||| NRF_CONFIG_PWR_UP) % 256]
              else s.hw.regs r
            status_pos := s.hw.status_pos + (k + 2)
            now_us := s.hw.now_us + 1645 + k
            trace := s.hw.trace ++ evts ++
              [Event.csn false, Event.mosi [0x27], Event.mosi [0x70], Event.csn true] }
          packets_sent :=
            if (s.hw.statusAt (k + 1) &&& NRF_STATUS_TX_DS != 0) = true
            then (s.packets_sent + 1) % 2 ^ 16 else s.packets_sent
          packets_lost :=
            if (s.hw.statusAt (k + 1) &&& NRF_STATUS_TX_DS != 0) = true
            then s.packets_lost else (s.packets_lost + 1) % 2 ^ 16 }) := by
  have hcsn : (startWrite data len multicast s).hw.csn = true := by
    rw [startWrite_eq data len multicast s hidle hlen]
  have hst : ∀ i, (startWrite data len multicast s).hw.statusAt i = s.hw.statusAt i := by
    intro i; rw [startWrite_eq data len multicast s hidle hlen]; rfl
  obtain ⟨evts, he⟩ := write_wait_found k 0 (startWrite data len multicast s) hcsn (by omega)
    (fun i hi => by rw [hst]; exact hquiet i hi) (by rw [hst]; exact hflag)
  refine ⟨txStartTrace ((s.hw.regs 0).getD 0 0 % 256) multicast (data.take len) ++ evts ++
    [Event.csn false, Event.mosi [0x07], Event.miso [s.hw.statusAt (k + 1)], Event.csn true], ?_⟩
  rw [write_eq_startWrite data len multicast s hlen, he]
  simp only [Bool.true_eq_false, ↓reduceIte]
  rw [readReg_status _ rfl]
  simp only []
  rw [clearInterrupts_eq _ rfl, startWrite_eq data len multicast s hidle hlen]
  by_cases hds : s.hw.statusAt (k + 1) &&& NRF_STATUS_TX_DS = 0 <;>
    simp only [Hardware.statusAt] at hds <;>
    simp [hds, Hardware.statusAt, NRF_STATUS_REGISTER, Nat.add_assoc] <;>
    (funext r; by_cases h7 : r = 7 <;> simp [h7])

/-- Result of `write` when the first 10001 status reads of the poll loop all
show neither `TX_DS` nor `MAX_RT`: the loop returns on the deadline after the
flush-TX command, and no driver field changes. -/
theorem write_timeout_eq (data : List Nat) (len : Nat) (multicast : Bool) (s : NRF24)
    (hidle : s.hw.csn = true) (hlen : len ≤ 32)
    (hquiet : ∀ i < 10001, s.hw.statusAt i &&& (NRF_STATUS_TX_DS ||| NRF_STATUS_MAX_RT) = 0) :
    ∃ evts, write data len multicast s =
      (false,
        { s with
          hw := { s.hw with
            csn := true
            ce := false
            frame := []
            regs := fun r =>
              if r = NRF_STATUS_REGISTER then [0x70]
              else if r = NRF_CONFIG_REGISTER then
                [(((s.hw.regs 0).getD 0 0 % 256 &&& not8 1) % 256 ||| NRF_CONFIG_PWR_UP) % 256]
              else s.hw.regs r
            status_pos := s.hw.status_pos + 10001
            now_us := s.hw.now_us + 1645 + 10001
            trace := s.hw.trace ++ evts ++
              [Event.csn false, Event.mosi [NRF_FLUSH_TX], Event.csn true] } }) := by
  have hcsn : (startWrite data len multicast s).hw.csn = true := by
    rw [startWrite_eq data len multicast s hidle hlen]
  have hst : ∀ i, (startWrite data len multicast s).hw.statusAt i = s.hw.statusAt i := by
    intro i; rw [startWrite_eq data len multicast s hidle hlen]; rfl
  obtain ⟨evts, he⟩ := write_wait_timeout 10000 0 (startWrite data len multicast s) hcsn rfl
    (fun i hi => by rw [hst]; exact hquiet i hi)
  refine ⟨txStartTrace ((s.hw.regs 0).getD 0 0 % 256) multicast (data.take len) ++ evts, ?_⟩
  rw [write_eq_startWrite data len multicast s hlen, he]
  simp only [↓reduceIte]
  rw [startWrite_eq data len multicast s hidle hlen]
  simp [Nat.add_assoc]

/-- Incrementing a 16-bit counter always changes it. -/
theorem incr16_ne (x : Nat) : (x + 1) % 2 ^ 16 ≠ x := by
  norm_num
  omega

/-! ## Claims about `write` -/

/-- C1. In `write(data, len, multicast)` with `len <= 32`, when the poll loop
ends because a status read shows `TX_DS` (0x20) or `MAX_RT` (0x10) (read number
`k <= 10000` of the loop, the earlier ones showing neither), the last frame of
the call writes `0x70` to STATUS, the call returns `true` exactly when `TX_DS`
is set in the status it evaluates (the read that follows the one ending the
loop), and it increments `packets_sent` when it returns `true` and
`packets_lost` otherwise, leaving the other counter unchanged.  The counters are
`uint16_t`, so the increment is modulo `2^16`. -/
theorem write_chip_outcome (data : List Nat) (len : Nat) (multicast : Bool) (s : NRF24) (k : Nat)
    (hidle : s.hw.csn = true) (hlen : len ≤ 32) (hk : k ≤ 10000)
    (hquiet : ∀ i < k, s.hw.statusAt i &&& (NRF_STATUS_TX_DS ||| NRF_STATUS_MAX_RT) = 0)
    (hflag : s.hw.statusAt k &&& (NRF_STATUS_TX_DS ||| NRF_STATUS_MAX_RT) ≠ 0) :
    (∃ pre, (write data len multicast s).2.hw.trace =
      pre ++ [Event.csn false, Event.mosi [NRF_W_REGISTER ||| NRF_STATUS_REGISTER],
        Event.mosi [0x70], Event.csn true]) ∧
    (write data len multicast s).2.hw.regs NRF_STATUS_REGISTER = [0x70] ∧
    ((write data len multicast s).1 = true ↔ s.hw.statusAt (k + 1) &&& NRF_STATUS_TX_DS ≠ 0) ∧
    ((write data len multicast s).1 = true →
      (write data len multicast s).2.packets_sent = (s.packets_sent + 1) % 2 ^ 16 ∧
      (write data len multicast s).2.packets_lost = s.packets_lost) ∧
    ((write data len multicast s).1 = false →
      (write data len multicast s).2.packets_lost = (s.packets_lost + 1) % 2 ^ 16 ∧
      (write data len multicast s).2.packets_sent = s.packets_sent) := by
  obtain ⟨evts, he⟩ := write_found_eq data len multicast s k hidle hlen hk hquiet hflag
  rw [he]
  refine ⟨⟨_, rfl⟩, by simp, by simp, ?_, ?_⟩
  · intro hr
    simp only [] at hr
    simp [hr]
  · intro hr
    simp only [] at hr
    simp [hr]

/-- Scenario 2 of the specification, as an instance of C1: a 32-byte payload
written on a fresh driver whose chip reports `TX_DS` at once is reported sent,
with `packets_sent = 1` and `packets_lost = 0`. -/
theorem write_chip_outcome_witness :
    (write (List.replicate 32 0xAB) 32 false (ctor (Hardware.powerOn (fun _ => 0x2E)))).1 = true ∧
    (write (List.replicate 32 0xAB) 32 false
      (ctor (Hardware.powerOn (fun _ => 0x2E)))).2.packets_sent = 1 ∧
    (write (List.replicate 32 0xAB) 32 false
      (ctor (Hardware.powerOn (fun _ => 0x2E)))).2.packets_lost = 0 := by
  have h := write_chip_outcome (List.replicate 32 0xAB) 32 false
    (ctor (Hardware.powerOn (fun _ => 0x2E))) 0 rfl (by decide) (by decide)
    (fun i hi => absurd hi (Nat.not_lt_zero i)) (by decide)
  have ht := h.2.2.1.mpr (by decide)
  exact ⟨ht, (h.2.2.2.1 ht).1, (h.2.2.2.1 ht).2⟩

/-- C2, as stated, fails: a call of `write` with `len = 33` changes neither
counter, so it is not true of every call that exactly one of them is
incremented. -/
theorem write_counters_oversize_counterexample :
    ¬ (((write (List.replicate 33 0) 33 false
            (ctor (Hardware.powerOn (fun _ => 0x2E)))).2.packets_sent =
          (ctor (Hardware.powerOn (fun _ => 0x2E))).packets_sent + 1 ∧
        (write (List.replicate 33 0) 33 false
            (ctor (Hardware.powerOn (fun _ => 0x2E)))).2.packets_lost =
          (ctor (Hardware.powerOn (fun _ => 0x2E))).packets_lost) ∨
      ((write (List.replicate 33 0) 33 false
            (ctor (Hardware.powerOn (fun _ => 0x2E)))).2.packets_lost =
          (ctor (Hardware.powerOn (fun _ => 0x2E))).packets_lost + 1 ∧
        (write (List.replicate 33 0) 33 false
            (ctor (Hardware.powerOn (fun _ => 0x2E)))).2.packets_sent =
          (ctor (Hardware.powerOn (fun _ => 0x2E))).packets_sent)) := by
  decide

/-- C2, amended.  A call of `write` with `len > 32` changes neither counter.
A call with `len <= 32` whose poll loop ends on a status read showing `TX_DS` or
`MAX_RT` increments exactly one of `packets_sent` and `packets_lost`, by one
(modulo `2^16`), and leaves the other unchanged: never both, never neither. -/
theorem write_counters_exactly_one (data : List Nat) (len : Nat) (multicast : Bool) (s : NRF24) :
    (32 < len →
      (write data len multicast s).2.packets_sent = s.packets_sent ∧
      (write data len multicast s).2.packets_lost = s.packets_lost) ∧
    (len ≤ 32 → s.hw.csn = true →
      (∃ k, k ≤ 10000 ∧
        (∀ i < k, s.hw.statusAt i &&& (NRF_STATUS_TX_DS ||| NRF_STATUS_MAX_RT) = 0) ∧
        s.hw.statusAt k &&& (NRF_STATUS_TX_DS ||| NRF_STATUS_MAX_RT) ≠ 0) →
      (((write data len multicast s).2.packets_sent = (s.packets_sent + 1) % 2 ^ 16 ∧
          (write data len multicast s).2.packets_sent ≠ s.packets_sent ∧
          (write data len multicast s).2.packets_lost = s.packets_lost) ∨
        ((write data len multicast s).2.packets_lost = (s.packets_lost + 1) % 2 ^ 16 ∧
          (write data len multicast s).2.packets_lost ≠ s.packets_lost ∧
          (write data len multicast s).2.packets_sent = s.packets_sent))) := by
  constructor
  · intro hlen
    have hl : len > NRF_MAX_PAYLOAD_SIZE := hlen
    simp [write, hl]
  · rintro hlen hidle ⟨k, hk, hquiet, hflag⟩
    obtain ⟨evts, he⟩ := write_found_eq data len multicast s k hidle hlen hk hquiet hflag
    rw [he]
    by_cases hb : (s.hw.statusAt (k + 1) &&& NRF_STATUS_TX_DS != 0) = true
    · left
      have hn := incr16_ne s.packets_sent
      simp [hb]
      omega
    · right
      have hn := incr16_ne s.packets_lost
      simp [hb]
      omega

/-- An instance of the amended C2: on a fresh driver a 33-byte call changes no
counter, and a 32-byte call answered by `MAX_RT` counts one lost packet. -/
theorem write_counters_exactly_one_witness :
    (write (List.replicate 33 0) 33 false
        (ctor (Hardware.powerOn (fun _ => 0x1E)))).2.packets_lost = 0 ∧
    ((write (List.replicate 32 0) 32 false
        (ctor (Hardware.powerOn (fun _ => 0x1E)))).2.packets_sent = 1 ∨
      (write (List.replicate 32 0) 32 false
        (ctor (Hardware.powerOn (fun _ => 0x1E)))).2.packets_lost = 1) := by
  refine ⟨((write_counters_exactly_one (List.replicate 33 0) 33 false
      (ctor (Hardware.powerOn (fun _ => 0x1E)))).1 (by decide)).2, ?_⟩
  have h := (write_counters_exactly_one (List.replicate 32 0) 32 false
      (ctor (Hardware.powerOn (fun _ => 0x1E)))).2 (by decide) rfl
      ⟨0, by decide, fun i hi => absurd hi (Nat.not_lt_zero i), by decide⟩
  rcases h with h | h
  · exact Or.inl h.1
  · exact Or.inr h.1

/-- C3 on the code: a 32-byte `write` on a fresh driver whose chip never shows
`TX_DS` or `MAX_RT` (every status read gives `0x0E`) ends with the flush-TX
command and returns `false`, but `packets_lost` is still 0 afterwards: the
deadline path returns before the statistics update. -/
theorem write_timeout_not_counted :
    (write (List.replicate 32 0xAB) 32 false (ctor (Hardware.powerOn (fun _ => 0x0E)))).1 = false ∧
    (∃ pre, (write (List.replicate 32 0xAB) 32 false
        (ctor (Hardware.powerOn (fun _ => 0x0E)))).2.hw.trace =
      pre ++ [Event.csn false, Event.mosi [NRF_FLUSH_TX], Event.csn true]) ∧
    (write (List.replicate 32 0xAB) 32 false
      (ctor (Hardware.powerOn (fun _ => 0x0E)))).2.packets_lost = 0 ∧
    (write (List.replicate 32 0xAB) 32 false
      (ctor (Hardware.powerOn (fun _ => 0x0E)))).2.packets_sent = 0 := by
  obtain ⟨evts, he⟩ := write_timeout_eq (List.replicate 32 0xAB) 32 false
    (ctor (Hardware.powerOn (fun _ => 0x0E))) rfl (by decide)
    (fun _ _ => by simp +decide [Hardware.statusAt, Hardware.powerOn, ctor])
  rw [he]
  exact ⟨rfl, ⟨_, rfl⟩, rfl, rfl⟩

/-- C4. For every `len > 32`, `write(data, len, multicast)` returns `false` and
is a no-op: the whole state (every driver field, the chip-enable line, the bus
trace and the chip) is what it was before the call. -/
theorem write_oversize_noop (data : List Nat) (len : Nat) (multicast : Bool) (s : NRF24)
    (hlen : 32 < len) :
    write data len multicast s = (false, s) := by
  have hl : len > NRF_MAX_PAYLOAD_SIZE := hlen
  simp [write, hl]

/-- An instance of C4: a 33-byte write on a fresh driver. -/
theorem write_oversize_noop_witness :
    write (List.replicate 33 0) 33 true (ctor (Hardware.powerOn (fun _ => 0x2E))) =
      (false, ctor (Hardware.powerOn (fun _ => 0x2E))) :=
  write_oversize_noop (List.replicate 33 0) 33 true (ctor (Hardware.powerOn (fun _ => 0x2E)))
    (by decide)

/-! ## Claims about `writeBlocking` -/

/-- On an oversized payload `startWrite` does nothing, and `writeBlocking`
goes on to poll: with a non-zero timeout and a status register that shows
`TX_DS` or `MAX_RT`, it clears the flags, moves a counter and returns the
`TX_DS` bit. -/
theorem writeBlocking_oversize_polls (data : List Nat) (len timeout_ms : Nat) (s : NRF24)
    (hidle : s.hw.csn = true) (hlen : 32 < len) (ht : 0 < timeout_ms % 2 ^ 32)
    (hflag : s.hw.statusAt 0 &&& (NRF_STATUS_TX_DS ||| NRF_STATUS_MAX_RT) ≠ 0) :
    writeBlocking data len timeout_ms s =
      (s.hw.statusAt 0 &&& NRF_STATUS_TX_DS != 0,
        { s with
          hw := { s.hw with
            csn := true
            frame := []
            regs := fun r => if r = NRF_STATUS_REGISTER then [0x70] else s.hw.regs r
            status_pos := s.hw.status_pos + 1
            trace := s.hw.trace ++
              [Event.csn false, Event.mosi [0x07], Event.miso [s.hw.statusAt 0], Event.csn true,
                Event.csn false, Event.mosi [0x27], Event.mosi [0x70], Event.csn true] }
          packets_sent :=
            if (s.hw.statusAt 0 &&& NRF_STATUS_TX_DS != 0) = true
            then (s.packets_sent + 1) % 2 ^ 16 else s.packets_sent
          packets_lost :=
            if (s.hw.statusAt 0 &&& NRF_STATUS_TX_DS != 0) = true
            then s.packets_lost else (s.packets_lost + 1) % 2 ^ 16 }) := by
  have hl : len > NRF_MAX_PAYLOAD_SIZE := hlen
  have hel : elapsed_ms s.hw.to_ms_since_boot s = 0 := by
    simp only [elapsed_ms, Hardware.to_ms_since_boot, Nat.reducePow]
    omega
  rw [writeBlocking]
  simp only [startWrite, hl, ↓reduceIte]
  rw [writeBlocking_wait]
  simp only [hel, ht, ↓reduceIte]
  rw [readReg_status s hidle]
  simp only [hflag, ne_eq, not_false_eq_true, ↓reduceIte]
  rw [clearInterrupts_eq _ rfl]
  by_cases hds : s.hw.statusAt 0 &&& NRF_STATUS_TX_DS = 0 <;> simp [hds]

/-- On an oversized payload and a zero timeout, `writeBlocking` skips the loop
and still issues the flush-TX command. -/
theorem writeBlocking_oversize_zero_timeout (data : List Nat) (len : Nat) (s : NRF24)
    (hlen : 32 < len) :
    writeBlocking data len 0 s = (false, flushTx s) := by
  have hl : len > NRF_MAX_PAYLOAD_SIZE := hlen
  rw [writeBlocking]
  simp only [startWrite, hl, ↓reduceIte]
  rw [writeBlocking_wait]
  simp

/-- C5 on the code: `writeBlocking` with a 33-byte payload and a 1 ms timeout,
on a fresh driver whose status register holds `0x2E` (a stale `TX_DS`), reads
STATUS, writes `0x70` to it, counts a packet as sent and returns `true`; with a
zero timeout it returns `false` but puts the flush-TX frame on the bus. -/
theorem writeBlocking_oversize_not_noop :
    (writeBlocking (List.replicate 33 0) 33 1 (ctor (Hardware.powerOn (fun _ => 0x2E)))).1 = true ∧
    (writeBlocking (List.replicate 33 0) 33 1
      (ctor (Hardware.powerOn (fun _ => 0x2E)))).2.packets_sent = 1 ∧
    (writeBlocking (List.replicate 33 0) 33 1
      (ctor (Hardware.powerOn (fun _ => 0x2E)))).2.hw.trace =
      [Event.csn false, Event.mosi [0x07], Event.miso [0x2E], Event.csn true,
        Event.csn false, Event.mosi [0x27], Event.mosi [0x70], Event.csn true] ∧
    (writeBlocking (List.replicate 33 0) 33 0
      (ctor (Hardware.powerOn (fun _ => 0x2E)))).2.hw.trace =
      [Event.csn false, Event.mosi [NRF_FLUSH_TX], Event.csn true] := by
  rw [writeBlocking_oversize_polls (List.replicate 33 0) 33 1
    (ctor (Hardware.powerOn (fun _ => 0x2E))) rfl (by decide) (by decide) (by decide),
    writeBlocking_oversize_zero_timeout (List.replicate 33 0) 33
    (ctor (Hardware.powerOn (fun _ => 0x2E))) (by decide)]
  exact ⟨by decide, by decide, by decide, by decide⟩

/-! ## The receive engine -/

/-- On an idle bus, `getDynamicPayloadSize` is one `R_RX_PL_WID` frame, followed by
a flush-RX frame when the reported width exceeds 32. -/
theorem getDynamicPayloadSize_eq (s : NRF24) (h : s.hw.csn = true) :
    getDynamicPayloadSize s =
      if s.hw.rxPayloadWidth > NRF_MAX_PAYLOAD_SIZE then
        (0, { s with hw := { s.hw with
            csn := true
            frame := []
            rx_fifo := []
            trace := s.hw.trace ++
              [Event.csn false, Event.mosi [NRF_R_RX_PL_WID], Event.miso [s.hw.rxPayloadWidth],
                Event.csn true,
                Event.csn false, Event.mosi [NRF_FLUSH_RX], Event.csn true] } })
      else
        (s.hw.rxPayloadWidth, { s with hw := { s.hw with
            csn := true
            frame := []
            trace := s.hw.trace ++
              [Event.csn false, Event.mosi [NRF_R_RX_PL_WID], Event.miso [s.hw.rxPayloadWidth],
                Event.csn true] } }) := by
  have hw256 : s.hw.rxPayloadWidth % 256 = s.hw.rxPayloadWidth := by
    unfold Hardware.rxPayloadWidth
    split <;> simp
  have hfr : csnHigh (spi_read_blocking 1 (spi_write_blocking [NRF_R_RX_PL_WID] (csnLow s))).2 =
      { s with hw := { s.hw with
            csn := true
            frame := []
            trace := s.hw.trace ++
              [Event.csn false, Event.mosi [NRF_R_RX_PL_WID], Event.miso [s.hw.rxPayloadWidth],
                Event.csn true] } } := by
    simp +decide [csnLow, csnHigh, spi_write_blocking, spi_read_blocking,
      Hardware.gpio_put_csn, Hardware.spi_write_blocking, Hardware.spi_read_blocking,
      Hardware.miso, Hardware.readsStatus, Hardware.commitRegs, Hardware.commitRxFifo,
      Hardware.firstBytes, h, NRF_STATUS_REGISTER, NRF_R_REGISTER, NRF_W_REGISTER,
      NRF_FLUSH_RX, NRF_R_RX_PAYLOAD, NRF_R_RX_PL_WID, List.range_succ]
    exact hw256
  have hv : (spi_read_blocking 1 (spi_write_blocking [NRF_R_RX_PL_WID] (csnLow s))).1.headD 0 =
      s.hw.rxPayloadWidth := by
    simp +decide [csnLow, spi_write_blocking, spi_read_blocking,
      Hardware.gpio_put_csn, Hardware.spi_write_blocking, Hardware.spi_read_blocking,
      Hardware.miso, Hardware.firstBytes, h, NRF_STATUS_REGISTER, NRF_R_REGISTER,
      NRF_R_RX_PAYLOAD, NRF_R_RX_PL_WID, List.range_succ]
    exact hw256
  simp only [getDynamicPayloadSize, hfr, hv]
  split
  · rw [flushRx_eq _ rfl]
    simp
  · rfl

/-- The read-payload frame on an idle bus: the opcode `0x61` goes out, `n`
bytes of the payload at the head of the RX FIFO come back, and the chip drops
that payload. -/
theorem rxPayload_frame (n : Nat) (s : NRF24) (h : s.hw.csn = true) :
    (spi_read_blocking n (spi_write_blocking [NRF_R_RX_PAYLOAD] (csnLow s))).1 =
      Hardware.firstBytes n (s.hw.rx_fifo.headD []) ∧
    csnHigh (spi_read_blocking n (spi_write_blocking [NRF_R_RX_PAYLOAD] (csnLow s))).2 =
      { s with hw := { s.hw with
          csn := true
          frame := []
          rx_fifo := s.hw.rx_fifo.tail
          trace := s.hw.trace ++
            [Event.csn false, Event.mosi [NRF_R_RX_PAYLOAD],
              Event.miso (Hardware.firstBytes n (s.hw.rx_fifo.headD [])), Event.csn true] } } := by
  constructor <;>
  simp +decide [csnLow, csnHigh, spi_write_blocking, spi_read_blocking,
    Hardware.gpio_put_csn, Hardware.spi_write_blocking, Hardware.spi_read_blocking,
    Hardware.miso, Hardware.readsStatus, Hardware.commitRegs, Hardware.commitRxFifo,
    h, NRF_STATUS_REGISTER, NRF_R_REGISTER, NRF_W_REGISTER,
    NRF_FLUSH_RX, NRF_R_RX_PAYLOAD, NRF_R_RX_PL_WID]

/-- With dynamic payloads disabled, on an idle bus, the argument `len` of `read`
is the number of bytes read and returned. -/
theorem read_static_eq (len : Nat) (s : NRF24) (h : s.hw.csn = true)
    (hdyn : s.dynamic_payload_enabled = false) :
    read len s =
      (len, Hardware.firstBytes len (s.hw.rx_fifo.headD []),
        { s with
          hw := { s.hw with
            csn := true
            frame := []
            regs := fun r => if r = NRF_STATUS_REGISTER then [NRF_STATUS_RX_DR] else s.hw.regs r
            rx_fifo := s.hw.rx_fifo.tail
            trace := s.hw.trace ++
              [Event.csn false, Event.mosi [NRF_R_RX_PAYLOAD],
                Event.miso (Hardware.firstBytes len (s.hw.rx_fifo.headD [])), Event.csn true,
                Event.csn false, Event.mosi [0x27], Event.mosi [NRF_STATUS_RX_DR],
                Event.csn true] }
          packets_received := (s.packets_received + 1) % 2 ^ 16 }) := by
  simp only [read, hdyn, Bool.false_eq_true, ↓reduceIte]
  rw [(rxPayload_frame len s h).1, (rxPayload_frame len s h).2, writeReg_eq _ _ _ rfl (by decide)]
  simp [NRF_STATUS_REGISTER, NRF_W_REGISTER, hdyn]

/-- The function `read` with dynamic payloads enabled, on an idle bus, where `w` is the
width the chip reports: the width is queried first; a width above 32 flushes the
RX FIFO and makes the length 0, otherwise the length is `min w len`; then the
read-payload frame, the write of `RX_DR` to STATUS and the counter update
follow in both cases. -/
theorem read_dynamic_eq (len : Nat) (s : NRF24) (h : s.hw.csn = true)
    (hdyn : s.dynamic_payload_enabled = true) :
    read len s =
      if s.hw.rxPayloadWidth > NRF_MAX_PAYLOAD_SIZE then
        (0, [],
          { s with
            hw := { s.hw with
              csn := true
              frame := []
              regs := fun r => if r = NRF_STATUS_REGISTER then [NRF_STATUS_RX_DR] else s.hw.regs r
              rx_fifo := []
              trace := s.hw.trace ++
                [Event.csn false, Event.mosi [NRF_R_RX_PL_WID], Event.miso [s.hw.rxPayloadWidth],
                  Event.csn true,
                  Event.csn false, Event.mosi [NRF_FLUSH_RX], Event.csn true,
                  Event.csn false, Event.mosi [NRF_R_RX_PAYLOAD], Event.miso [], Event.csn true,
                  Event.csn false, Event.mosi [0x27], Event.mosi [NRF_STATUS_RX_DR],
                  Event.csn true] }
            packets_received := (s.packets_received + 1) % 2 ^ 16 })
      else
        (min s.hw.rxPayloadWidth len,
          Hardware.firstBytes (min s.hw.rxPayloadWidth len) (s.hw.rx_fifo.headD []),
          { s with
            hw := { s.hw with
              csn := true
              frame := []
              regs := fun r => if r = NRF_STATUS_REGISTER then [NRF_STATUS_RX_DR] else s.hw.regs r
              rx_fifo := s.hw.rx_fifo.tail
              trace := s.hw.trace ++
                [Event.csn false, Event.mosi [NRF_R_RX_PL_WID], Event.miso [s.hw.rxPayloadWidth],
                  Event.csn true,
                  Event.csn false, Event.mosi [NRF_R_RX_PAYLOAD],
                  Event.miso (Hardware.firstBytes (min s.hw.rxPayloadWidth len)
                    (s.hw.rx_fifo.headD [])),
                  Event.csn true,
                  Event.csn false, Event.mosi [0x27], Event.mosi [NRF_STATUS_RX_DR],
                  Event.csn true] }
            packets_received := (s.packets_received + 1) % 2 ^ 16 }) := by
  simp only [read, hdyn, ↓reduceIte]
  rw [getDynamicPayloadSize_eq s h]
  by_cases hw : s.hw.rxPayloadWidth > NRF_MAX_PAYLOAD_SIZE
  · simp only [hw, ↓reduceIte]
    have h0 : ¬ 0 > len := by omega
    simp only [h0, ↓reduceIte]
    rw [(rxPayload_frame 0 _ rfl).1, (rxPayload_frame 0 _ rfl).2, writeReg_eq _ _ _ rfl (by decide)]
    simp [NRF_STATUS_REGISTER, NRF_W_REGISTER, Hardware.firstBytes, hdyn]
  · simp only [hw, ↓reduceIte]
    have hmin : (if s.hw.rxPayloadWidth > len then len else s.hw.rxPayloadWidth) =
        min s.hw.rxPayloadWidth len := by
      split <;> omega
    rw [hmin, (rxPayload_frame _ _ rfl).1, (rxPayload_frame _ _ rfl).2,
      writeReg_eq _ _ _ rfl (by decide)]
    simp [NRF_STATUS_REGISTER, NRF_W_REGISTER, hdyn]

/-! ## Claims about `read` and `getDynamicPayloadSize` -/

/-- C6, as stated, fails when dynamic payloads are disabled: on a driver
configured with `setPayloadSize(8)` that holds a received 8-byte payload,
`read(buffer, 32)` returns 32, not `min(8, 32) = 8`. -/
theorem read_static_length_counterexample :
    (setPayloadSize 8
      (ctor ((Hardware.powerOn (fun _ => 0x40)).received (List.replicate 8 0x55)))
      ).dynamic_payload_enabled = false ∧
    getPayloadSize (setPayloadSize 8
      (ctor ((Hardware.powerOn (fun _ => 0x40)).received (List.replicate 8 0x55)))) = 8 ∧
    (read 32 (setPayloadSize 8
      (ctor ((Hardware.powerOn (fun _ => 0x40)).received (List.replicate 8 0x55))))).1 = 32 ∧
    (read 32 (setPayloadSize 8
      (ctor ((Hardware.powerOn (fun _ => 0x40)).received (List.replicate 8 0x55))))).1 ≠
      min (getPayloadSize (setPayloadSize 8
        (ctor ((Hardware.powerOn (fun _ => 0x40)).received (List.replicate 8 0x55))))) 32 := by
  decide

/-- C6, amended.  On an idle bus, `read(buffer, maxLength)` reads and returns
`min(w, maxLength)` bytes when dynamic payloads are enabled and the width `w`
reported by the chip is at most 32; when dynamic payloads are disabled it reads
and returns `maxLength` bytes, whatever the configured payload size.  The bytes
stored in the buffer are the leading bytes of the payload at the head of the RX
FIFO. -/
theorem read_length (len : Nat) (s : NRF24) (hidle : s.hw.csn = true) :
    (s.dynamic_payload_enabled = true → s.hw.rxPayloadWidth ≤ 32 →
      (read len s).1 = min s.hw.rxPayloadWidth len ∧
      (read len s).2.1 =
        Hardware.firstBytes (min s.hw.rxPayloadWidth len) (s.hw.rx_fifo.headD []) ∧
      (read len s).2.1.length = min s.hw.rxPayloadWidth len) ∧
    (s.dynamic_payload_enabled = false →
      (read len s).1 = len ∧
      (read len s).2.1 = Hardware.firstBytes len (s.hw.rx_fifo.headD []) ∧
      (read len s).2.1.length = len) := by
  constructor
  · intro hdyn hw
    have hw2 : ¬ s.hw.rxPayloadWidth > NRF_MAX_PAYLOAD_SIZE := by
      simpa [NRF_MAX_PAYLOAD_SIZE] using hw
    rw [read_dynamic_eq len s hidle hdyn]
    simp [hw2, Hardware.firstBytes]
  · intro hdyn
    rw [read_static_eq len s hidle hdyn]
    simp [Hardware.firstBytes]

/-- Scenario 5 of the specification, as an instance of the amended C6: after
`enableDynamicPayloads()` and an incoming 10-byte frame, `read(buffer, 32)`
returns 10. -/
theorem read_length_witness :
    (read 32 { enableDynamicPayloads (ctor (Hardware.powerOn (fun _ => 0x40))) with
      hw := (enableDynamicPayloads (ctor (Hardware.powerOn (fun _ => 0x40)))).hw.received
        (List.replicate 10 0x55) }).1 = 10 :=
  ((read_length 32 { enableDynamicPayloads (ctor (Hardware.powerOn (fun _ => 0x40))) with
      hw := (enableDynamicPayloads (ctor (Hardware.powerOn (fun _ => 0x40)))).hw.received
        (List.replicate 10 0x55) } (by decide)).1 (by decide) (by decide)).1.trans (by decide)

/-- C7. On an idle bus, `getDynamicPayloadSize()` returns the width `w`
reported by the chip when `w <= 32`, leaving the RX FIFO as it was; when
`w > 32` it issues the flush-RX command, which leaves the RX FIFO empty, and
returns 0. -/
theorem getDynamicPayloadSize_spec (s : NRF24) (hidle : s.hw.csn = true) :
    (s.hw.rxPayloadWidth ≤ 32 →
      (getDynamicPayloadSize s).1 = s.hw.rxPayloadWidth ∧
      (getDynamicPayloadSize s).2.hw.rx_fifo = s.hw.rx_fifo) ∧
    (32 < s.hw.rxPayloadWidth →
      (getDynamicPayloadSize s).1 = 0 ∧
      (getDynamicPayloadSize s).2.hw.rx_fifo = [] ∧
      ∃ pre, (getDynamicPayloadSize s).2.hw.trace =
        pre ++ [Event.csn false, Event.mosi [NRF_FLUSH_RX], Event.csn true]) := by
  constructor
  · intro hw
    have hw2 : ¬ s.hw.rxPayloadWidth > NRF_MAX_PAYLOAD_SIZE := by
      simpa [NRF_MAX_PAYLOAD_SIZE] using hw
    rw [getDynamicPayloadSize_eq s hidle]
    simp [hw2]
  · intro hw
    have hw2 : s.hw.rxPayloadWidth > NRF_MAX_PAYLOAD_SIZE := hw
    rw [getDynamicPayloadSize_eq s hidle, if_pos hw2]
    refine ⟨rfl, rfl, ⟨s.hw.trace ++ [Event.csn false, Event.mosi [NRF_R_RX_PL_WID],
      Event.miso [s.hw.rxPayloadWidth], Event.csn true], ?_⟩⟩
    simp

/-- An instance of C7: with a 40-byte entry at the head of the RX FIFO and a
second entry behind it, `getDynamicPayloadSize()` returns 0 and empties the
FIFO; with a 10-byte entry it returns 10. -/
theorem getDynamicPayloadSize_spec_witness :
    (getDynamicPayloadSize (ctor (((Hardware.powerOn (fun _ => 0x40)).received
      (List.replicate 40 0)).received [1, 2, 3]))).1 = 0 ∧
    (getDynamicPayloadSize (ctor (((Hardware.powerOn (fun _ => 0x40)).received
      (List.replicate 40 0)).received [1, 2, 3]))).2.hw.rx_fifo = [] ∧
    (getDynamicPayloadSize (ctor ((Hardware.powerOn (fun _ => 0x40)).received
      (List.replicate 10 0)))).1 = 10 :=
  ⟨((getDynamicPayloadSize_spec (ctor (((Hardware.powerOn (fun _ => 0x40)).received
      (List.replicate 40 0)).received [1, 2, 3])) rfl).2 (by decide)).1,
   ((getDynamicPayloadSize_spec (ctor (((Hardware.powerOn (fun _ => 0x40)).received
      (List.replicate 40 0)).received [1, 2, 3])) rfl).2 (by decide)).2.1,
   ((getDynamicPayloadSize_spec (ctor ((Hardware.powerOn (fun _ => 0x40)).received
      (List.replicate 10 0))) rfl).1 (by decide)).1.trans (by decide)⟩

/-- C8 on the code: with dynamic payloads enabled and a 33-byte entry at the
head of the RX FIFO, `read(buffer, 32)` flushes the RX FIFO and returns 0, but
it then takes the normal path all the same: after the 12 trace events of
`enableDynamicPayloads`, the width query and the flush are followed by the
read-payload command `0x61` (for zero bytes) and the write of `RX_DR` to
STATUS, and `packets_received` goes from 0 to 1. -/
theorem read_anomaly_takes_normal_path :
    (read 32 { enableDynamicPayloads (ctor (Hardware.powerOn (fun _ => 0x40))) with
      hw := (enableDynamicPayloads (ctor (Hardware.powerOn (fun _ => 0x40)))).hw.received
        (List.replicate 33 0x55) }).1 = 0 ∧
    (read 32 { enableDynamicPayloads (ctor (Hardware.powerOn (fun _ => 0x40))) with
      hw := (enableDynamicPayloads (ctor (Hardware.powerOn (fun _ => 0x40)))).hw.received
        (List.replicate 33 0x55) }).2.2.hw.rx_fifo = [] ∧
    (read 32 { enableDynamicPayloads (ctor (Hardware.powerOn (fun _ => 0x40))) with
      hw := (enableDynamicPayloads (ctor (Hardware.powerOn (fun _ => 0x40)))).hw.received
        (List.replicate 33 0x55) }).2.2.packets_received = 1 ∧
    (read 32 { enableDynamicPayloads (ctor (Hardware.powerOn (fun _ => 0x40))) with
      hw := (enableDynamicPayloads (ctor (Hardware.powerOn (fun _ => 0x40)))).hw.received
        (List.replicate 33 0x55) }).2.2.hw.trace.drop 12 =
      [Event.csn false, Event.mosi [NRF_R_RX_PL_WID], Event.miso [33], Event.csn true,
        Event.csn false, Event.mosi [NRF_FLUSH_RX], Event.csn true,
        Event.csn false, Event.mosi [NRF_R_RX_PAYLOAD], Event.miso [], Event.csn true,
        Event.csn false, Event.mosi [NRF_W_REGISTER ||| NRF_STATUS_REGISTER],
        Event.mosi [NRF_STATUS_RX_DR], Event.csn true] := by
  decide

/-! ## Claims about pipes and reset -/

/-- Effect of `openReadingPipe` on a pipe from 2 to 5, on an idle bus: bit
`pipe` is or-ed into EN_RXADDR, one byte (the one at index `address_width - 1`)
goes to the pipe's address register, the default payload size goes to its
width register, and the cache is updated. -/
theorem openReadingPipe_upper_eq (pipe : Nat) (address : List Nat) (s : NRF24)
    (h : s.hw.csn = true) (hp : 2 ≤ pipe) (hp5 : pipe ≤ 5) :
    openReadingPipe pipe address s =
      { s with
        hw := { s.hw with
          csn := true
          frame := []
          regs := fun r =>
            if r = NRF_RX_PW_P0_REGISTER + pipe then [s.payload_size]
            else if r = NRF_RX_ADDR_P0_REGISTER + pipe then
              [address.getD (s.address_width - 1) 0]
            else if r = NRF_EN_RXADDR_REGISTER then
              [((s.hw.regs NRF_EN_RXADDR_REGISTER).getD 0 0 % 256 ||| (1 <<< pipe)) % 256]
            else s.hw.regs r
          trace := s.hw.trace ++
            [Event.csn false, Event.mosi [NRF_EN_RXADDR_REGISTER],
              Event.miso [(s.hw.regs NRF_EN_RXADDR_REGISTER).getD 0 0 % 256], Event.csn true,
              Event.csn false, Event.mosi [NRF_W_REGISTER ||| NRF_EN_RXADDR_REGISTER],
              Event.mosi [((s.hw.regs NRF_EN_RXADDR_REGISTER).getD 0 0 % 256 ||| (1 <<< pipe)) % 256],
              Event.csn true,
              Event.csn false, Event.mosi [NRF_W_REGISTER ||| (NRF_RX_ADDR_P0_REGISTER + pipe)],
              Event.mosi [address.getD (s.address_width - 1) 0], Event.csn true,
              Event.csn false, Event.mosi [NRF_W_REGISTER ||| (NRF_RX_PW_P0_REGISTER + pipe)],
              Event.mosi [s.payload_size], Event.csn true] }
        pipes := fun i =>
          if i = pipe then
            { s.pipes pipe with
              address := memcpy (s.pipes pipe).address address s.address_width
              address_width := s.address_width
              payload_size := s.payload_size }
          else s.pipes i
        rx_pipe_enabled := (s.rx_pipe_enabled ||| (1 <<< pipe)) % 256 } := by
  interval_cases pipe <;>
    simp +decide [openReadingPipe, readReg_reg, writeReg_eq, h, NRF_MAX_PIPES,
      NRF_RX_ADDR_P0_REGISTER, NRF_RX_PW_P0_REGISTER, NRF_EN_RXADDR_REGISTER, NRF_W_REGISTER]

/-- A byte with bit `p` or-ed in, narrowed to 8 bits, has bit `p` set. -/
theorem or_bit_testBit (x p : Nat) (hp : p < 8) :
    ((x ||| (1 <<< p)) % 256).testBit p = true := by
  have h256 : (256 : Nat) = 2 ^ 8 := by norm_num
  rw [h256, Nat.testBit_mod_two_pow]
  simp [hp, Nat.testBit_or, Nat.one_shiftLeft, Nat.testBit_two_pow_self]

/-- C9. With address width 5, on an idle bus, for every pipe `p` from 2 to 5
and every 5-byte address `a`, `openReadingPipe(p, a)` writes exactly one byte,
`a[4]`, to register RX_ADDR_Pp (the only frame addressed to that register
carries that single data byte, and the register then holds only it), sets bit
`p` of EN_RXADDR (the value written is the value read or-ed with `1 << p`), and
caches all 5 bytes of `a` as the address of pipe `p`. -/
theorem openReadingPipe_high (p : Nat) (a : List Nat) (s : NRF24)
    (hidle : s.hw.csn = true) (haw : s.address_width = 5) (hp : 2 ≤ p) (hp5 : p ≤ 5)
    (ha : a.length = 5) :
    (openReadingPipe p a s).hw.regs (NRF_RX_ADDR_P0_REGISTER + p) = [a.getD 4 0] ∧
    (openReadingPipe p a s).hw.trace =
      s.hw.trace ++
        [Event.csn false, Event.mosi [NRF_EN_RXADDR_REGISTER],
          Event.miso [(s.hw.regs NRF_EN_RXADDR_REGISTER).getD 0 0 % 256], Event.csn true,
          Event.csn false, Event.mosi [NRF_W_REGISTER ||| NRF_EN_RXADDR_REGISTER],
          Event.mosi [((s.hw.regs NRF_EN_RXADDR_REGISTER).getD 0 0 % 256 ||| (1 <<< p)) % 256],
          Event.csn true,
          Event.csn false, Event.mosi [NRF_W_REGISTER ||| (NRF_RX_ADDR_P0_REGISTER + p)],
          Event.mosi [a.getD 4 0], Event.csn true,
          Event.csn false, Event.mosi [NRF_W_REGISTER ||| (NRF_RX_PW_P0_REGISTER + p)],
          Event.mosi [s.payload_size], Event.csn true] ∧
    (openReadingPipe p a s).hw.regs NRF_EN_RXADDR_REGISTER =
      [((s.hw.regs NRF_EN_RXADDR_REGISTER).getD 0 0 % 256 ||| (1 <<< p)) % 256] ∧
    (((s.hw.regs NRF_EN_RXADDR_REGISTER).getD 0 0 % 256 ||| (1 <<< p)) % 256).testBit p = true ∧
    ((openReadingPipe p a s).pipes p).address.take 5 = a ∧
    ((openReadingPipe p a s).pipes p).address_width = 5 := by
  rw [openReadingPipe_upper_eq p a s hidle hp hp5]
  refine ⟨?_, ?_, ?_, or_bit_testBit _ p (by omega), ?_, ?_⟩
  · simp [haw, NRF_RX_ADDR_P0_REGISTER, NRF_RX_PW_P0_REGISTER]
  · simp [haw]
  · interval_cases p <;>
      simp [NRF_RX_ADDR_P0_REGISTER, NRF_RX_PW_P0_REGISTER, NRF_EN_RXADDR_REGISTER]
  · simp [haw, memcpy, ha]
  · simp [haw]

/-- Scenario 4 of the specification, as an instance of C9:
`openReadingPipe(3, {0x11,0x22,0x33,0x44,0x55})` on a fresh driver (address
width 5) leaves RX_ADDR_P3 holding only `0x55`. -/
theorem openReadingPipe_high_witness :
    (openReadingPipe 3 [0x11, 0x22, 0x33, 0x44, 0x55]
      (ctor (Hardware.powerOn (fun _ => 0x0E)))).hw.regs NRF_RX_ADDR_P3_REGISTER = [0x55] ∧
    ((openReadingPipe 3 [0x11, 0x22, 0x33, 0x44, 0x55]
      (ctor (Hardware.powerOn (fun _ => 0x0E)))).pipes 3).address.take 5 =
        [0x11, 0x22, 0x33, 0x44, 0x55] :=
  ⟨(openReadingPipe_high 3 [0x11, 0x22, 0x33, 0x44, 0x55]
      (ctor (Hardware.powerOn (fun _ => 0x0E))) rfl rfl (by decide) (by decide) rfl).1,
   (openReadingPipe_high 3 [0x11, 0x22, 0x33, 0x44, 0x55]
      (ctor (Hardware.powerOn (fun _ => 0x0E))) rfl rfl (by decide) (by decide) rfl).2.2.2.2.1⟩

/-- C10. From every prior driver and register state with an idle bus, after
`reset()`: `getChannel()` returns 2, `getPayloadSize()` returns 32,
`isAutoAckEnabled()` returns `true` and the EN_AA register holds `0x3F`,
`getRetryCount()` returns 3 and `getRetryDelay()` returns `NRF24_ARD_250US`. -/
theorem reset_defaults (s : NRF24) (hidle : s.hw.csn = true) :
    (getChannel (reset s)).1 = 2 ∧
    getPayloadSize (reset s) = 32 ∧
    isAutoAckEnabled (reset s) = true ∧
    (reset s).hw.regs NRF_EN_AA_REGISTER = [0x3F] ∧
    (getRetryCount (reset s)).1 = 3 ∧
    (getRetryDelay (reset s)).1 = NRF24_ARD_250US := by
  obtain ⟨hcsn, hch, haa, hretr, -, hps, hack, -, -⟩ := reset_facts s hidle
  refine ⟨?_, hps, hack, haa, ?_, ?_⟩
  · rw [getChannel, readReg_reg _ _ hcsn (by decide) (by decide), hch]
    simp
  · rw [getRetryCount, readReg_reg _ _ hcsn (by decide) (by decide), hretr]
    simp +decide
  · rw [getRetryDelay, readReg_reg _ _ hcsn (by decide) (by decide), hretr]
    simp +decide [NRF24_ARD_250US]

/-- Scenario 1 of the specification, as an instance of C10, from a driver
whose channel, payload size and auto-ack flag were all changed before. -/
theorem reset_defaults_witness :
    (getChannel (reset { ctor (Hardware.powerOn (fun _ => 0x0E)) with
      channel := 99, payload_size := 7, auto_ack_enabled := false })).1 = 2 ∧
    getPayloadSize (reset { ctor (Hardware.powerOn (fun _ => 0x0E)) with
      channel := 99, payload_size := 7, auto_ack_enabled := false }) = 32 ∧
    isAutoAckEnabled (reset { ctor (Hardware.powerOn (fun _ => 0x0E)) with
      channel := 99, payload_size := 7, auto_ack_enabled := false }) = true :=
  ⟨(reset_defaults { ctor (Hardware.powerOn (fun _ => 0x0E)) with
      channel := 99, payload_size := 7, auto_ack_enabled := false } rfl).1,
   (reset_defaults { ctor (Hardware.powerOn (fun _ => 0x0E)) with
      channel := 99, payload_size := 7, auto_ack_enabled := false } rfl).2.1,
   (reset_defaults { ctor (Hardware.powerOn (fun _ => 0x0E)) with
      channel := 99, payload_size := 7, auto_ack_enabled := false } rfl).2.2.1⟩

/-! ## Claims about the configuration model -/

/-- Effect of `setChannel` on an idle bus: the clamped channel is cached and
written to RF_CH in one frame. -/
theorem setChannel_eq (channel : Nat) (s : NRF24) (h : s.hw.csn = true) :
    setChannel channel s =
      { s with
        hw := { s.hw with
          csn := true
          frame := []
          regs := fun r => if r = NRF_RF_CH_REGISTER then [min channel 125] else s.hw.regs r
          trace := s.hw.trace ++
            [Event.csn false, Event.mosi [NRF_W_REGISTER ||| NRF_RF_CH_REGISTER],
              Event.mosi [min channel 125], Event.csn true] }
        channel := min channel 125 } := by
  have hmin : (if channel > NRF_MAX_CHANNEL then NRF_MAX_CHANNEL else channel) = min channel 125 := by
    unfold NRF_MAX_CHANNEL
    split <;> omega
  simp only [setChannel, hmin]
  rw [writeReg_eq _ _ { s with channel := min channel 125 } h (by decide)]

/-- C11. On an idle bus, for every `x`, `setChannel(x)` followed by
`getChannel()` returns `min(x, 125)`, which is the value written to the RF_CH
register and read back from it (and the value cached in `channel`). -/
theorem setChannel_getChannel (x : Nat) (s : NRF24) (hidle : s.hw.csn = true) :
    (getChannel (setChannel x s)).1 = min x 125 ∧
    (setChannel x s).hw.regs NRF_RF_CH_REGISTER = [min x 125] ∧
    (setChannel x s).channel = min x 125 := by
  rw [setChannel_eq x s hidle]
  refine ⟨?_, by simp, rfl⟩
  rw [getChannel, readReg_reg _ _ rfl (by decide) (by decide)]
  simp

/-- Scenario 6 of the specification, as an instance of C11: after
`setChannel(200)`, `getChannel()` returns 125. -/
theorem setChannel_getChannel_witness :
    (getChannel (setChannel 200 (ctor (Hardware.powerOn (fun _ => 0x0E))))).1 = 125 :=
  (setChannel_getChannel 200 (ctor (Hardware.powerOn (fun _ => 0x0E))) rfl).1

/-- C13, as stated, fails: after `setPayloadSize(0, 16)` on a fresh driver,
`setPayloadSize(0, 40)` leaves `getPayloadSize(0)` at 16 and RX_PW_P0 holding
16; neither becomes 32. -/
theorem setPayloadSizePipe_clamp_counterexample :
    getPayloadSizePipe 0 (setPayloadSizePipe 0 40
      (setPayloadSizePipe 0 16 (ctor (Hardware.powerOn (fun _ => 0x0E))))) = 16 ∧
    (setPayloadSizePipe 0 40
      (setPayloadSizePipe 0 16 (ctor (Hardware.powerOn (fun _ => 0x0E))))).hw.regs
        NRF_RX_PW_P0_REGISTER = [16] ∧
    getPayloadSizePipe 0 (setPayloadSizePipe 0 40
      (setPayloadSizePipe 0 16 (ctor (Hardware.powerOn (fun _ => 0x0E))))) ≠ 32 ∧
    (setPayloadSizePipe 0 40
      (setPayloadSizePipe 0 16 (ctor (Hardware.powerOn (fun _ => 0x0E))))).hw.regs
        NRF_RX_PW_P0_REGISTER ≠ [32] := by
  decide

/-- C13, amended.  The per-pipe payload-size setter ignores rather than clamps:
for every pipe `p` and every `size > 32`, `setPayloadSize(p, size)` changes
nothing, so `getPayloadSize(p)` returns what it returned before the call and
the register RX_PW_Pp keeps its content. -/
theorem setPayloadSizePipe_oversize_ignored (p size : Nat) (s : NRF24) (hsize : 32 < size) :
    setPayloadSizePipe p size s = s ∧
    getPayloadSizePipe p (setPayloadSizePipe p size s) = getPayloadSizePipe p s ∧
    (setPayloadSizePipe p size s).hw.regs (NRF_RX_PW_P0_REGISTER + p) =
      s.hw.regs (NRF_RX_PW_P0_REGISTER + p) := by
  have hs : size > NRF_MAX_PAYLOAD_SIZE := hsize
  have h : setPayloadSizePipe p size s = s := by
    simp [setPayloadSizePipe, hs]
  rw [h]
  exact ⟨rfl, rfl, rfl⟩

/-- An instance of the amended C13: `setPayloadSize(3, 200)` on a fresh driver
changes nothing. -/
theorem setPayloadSizePipe_oversize_ignored_witness :
    setPayloadSizePipe 3 200 (ctor (Hardware.powerOn (fun _ => 0x0E))) =
      ctor (Hardware.powerOn (fun _ => 0x0E)) :=
  (setPayloadSizePipe_oversize_ignored 3 200 (ctor (Hardware.powerOn (fun _ => 0x0E)))
    (by decide)).1

/-- C14 on the code: on a fresh driver `setAddressWidth` caches the byte
counts 3, 4 and 5 but leaves SETUP_AW holding 2, 3 and 4, one more than the
encodings 1, 2 and 3; after the 5-byte setting the register holds 4 and
`isConnected()` returns `false`. -/
theorem setAddressWidth_register_off_by_one :
    (setAddressWidth NRF24_ADDR_WIDTH_3BYTES
      (ctor (Hardware.powerOn (fun _ => 0x0E)))).hw.regs NRF_SETUP_AW_REGISTER = [2] ∧
    (setAddressWidth NRF24_ADDR_WIDTH_3BYTES
      (ctor (Hardware.powerOn (fun _ => 0x0E)))).address_width = 3 ∧
    (setAddressWidth NRF24_ADDR_WIDTH_4BYTES
      (ctor (Hardware.powerOn (fun _ => 0x0E)))).hw.regs NRF_SETUP_AW_REGISTER = [3] ∧
    (setAddressWidth NRF24_ADDR_WIDTH_4BYTES
      (ctor (Hardware.powerOn (fun _ => 0x0E)))).address_width = 4 ∧
    (setAddressWidth NRF24_ADDR_WIDTH_5BYTES
      (ctor (Hardware.powerOn (fun _ => 0x0E)))).hw.regs NRF_SETUP_AW_REGISTER = [4] ∧
    (setAddressWidth NRF24_ADDR_WIDTH_5BYTES
      (ctor (Hardware.powerOn (fun _ => 0x0E)))).address_width = 5 ∧
    (isConnected (setAddressWidth NRF24_ADDR_WIDTH_5BYTES
      (ctor (Hardware.powerOn (fun _ => 0x0E))))).1 = false := by
  decide

/-- C15 on the code: after `reset()` on a fresh driver the cached address width
is 5 and SETUP_AW holds `0x03`, but `getAddressWidth()` returns
`NRF24_ADDR_WIDTH_4BYTES`, not `NRF24_ADDR_WIDTH_5BYTES`. -/
theorem getAddressWidth_after_reset_is_4bytes :
    (reset (ctor (Hardware.powerOn (fun _ => 0x0E)))).address_width = 5 ∧
    (reset (ctor (Hardware.powerOn (fun _ => 0x0E)))).hw.regs NRF_SETUP_AW_REGISTER = [0x03] ∧
    (getAddressWidth (reset (ctor (Hardware.powerOn (fun _ => 0x0E))))).1 =
      NRF24_ADDR_WIDTH_4BYTES ∧
    (getAddressWidth (reset (ctor (Hardware.powerOn (fun _ => 0x0E))))).1 ≠
      NRF24_ADDR_WIDTH_5BYTES := by
  decide

/-- C17 on the code: after `setAutoAck(0, false)` and then `setAutoAck(true)`
on a fresh driver, EN_AA holds `0x3F` and `isAutoAckEnabled()` returns `true`,
but `isAutoAckEnabled(0)` still returns `false`; and `setAutoAck(false)` alone
leaves EN_AA at `0x00` while `isAutoAckEnabled(0)` returns `true`.  The global
setter does not touch the per-pipe flags. -/
theorem setAutoAck_leaves_pipe_flag_stale :
    (setAutoAck true (setAutoAckPipe 0 false
      (ctor (Hardware.powerOn (fun _ => 0x0E))))).hw.regs NRF_EN_AA_REGISTER = [0x3F] ∧
    isAutoAckEnabled (setAutoAck true (setAutoAckPipe 0 false
      (ctor (Hardware.powerOn (fun _ => 0x0E))))) = true ∧
    isAutoAckEnabledPipe 0 (setAutoAck true (setAutoAckPipe 0 false
      (ctor (Hardware.powerOn (fun _ => 0x0E))))) = false ∧
    (setAutoAck false (ctor (Hardware.powerOn (fun _ => 0x0E)))).hw.regs NRF_EN_AA_REGISTER =
      [0x00] ∧
    isAutoAckEnabledPipe 0 (setAutoAck false (ctor (Hardware.powerOn (fun _ => 0x0E)))) = true := by
  decide

set_option maxRecDepth 100000 in
/-- The test of `isChipConnected` on a byte, in terms of bits: the mask `0x0C`
selects bits 3 and 2, the mask `0x03` bits 1 and 0. -/
theorem connected_test_bits : ∀ v < 256,
    (((v &&& 0x0C) == 0x00 && (v &&& 0x03) != 0x00) = true ↔
      v.testBit 3 = false ∧ v.testBit 2 = false ∧ (v.testBit 1 = true ∨ v.testBit 0 = true)) := by
  decide

/-- C19, as stated, fails: when SETUP_AW reads `0x41` (bit 6 set), the upper
two bits are not clear, yet `isConnected()` returns `true`; when it reads
`0x05` the upper two bits are clear and the lower two are not both zero, yet
`isConnected()` returns `false`. -/
theorem isConnected_upper_bits_counterexample :
    (isConnected (ctor { Hardware.powerOn (fun _ => 0x0E) with regs := fun _ => [0x41] })).1 = true ∧
    ¬ ((0x41).testBit 7 = false ∧ (0x41).testBit 6 = false ∧
      ((0x41).testBit 1 = true ∨ (0x41).testBit 0 = true)) ∧
    (isConnected (ctor { Hardware.powerOn (fun _ => 0x0E) with regs := fun _ => [0x05] })).1 = false ∧
    ((0x05).testBit 7 = false ∧ (0x05).testBit 6 = false ∧
      ((0x05).testBit 1 = true ∨ (0x05).testBit 0 = true)) := by
  decide

/-- C19, amended.  On an idle bus, for every value `v` read from the SETUP_AW
register, `isConnected()` returns `true` if and only if bits 3 and 2 of `v` are
clear and bits 1 and 0 of `v` are not both zero. -/
theorem isConnected_iff (s : NRF24) (v : Nat) (hidle : s.hw.csn = true)
    (hv : (readReg NRF_SETUP_AW_REGISTER s).1 = v) :
    (isConnected s).1 = true ↔
      v.testBit 3 = false ∧ v.testBit 2 = false ∧ (v.testBit 1 = true ∨ v.testBit 0 = true) := by
  have hlt : v < 256 := by
    rw [← hv, readReg_reg _ _ hidle (by decide) (by decide)]
    exact Nat.mod_lt _ (by decide)
  rw [← connected_test_bits v hlt, isConnected, isChipConnected, hv]

/-- An instance of the amended C19: after `reset()` SETUP_AW reads `0x03` and
`isConnected()` returns `true`. -/
theorem isConnected_iff_witness :
    (isConnected (reset (ctor (Hardware.powerOn (fun _ => 0x0E))))).1 = true :=
  (isConnected_iff (reset (ctor (Hardware.powerOn (fun _ => 0x0E)))) 3 (by decide)
    (by decide)).mpr (by decide)

/-! ## Claims about RF_SETUP -/

set_option maxRecDepth 1000000 in
/-- Bit-level facts about the byte written by `setDataRate`: it is a byte, it
differs from the byte read only inside the mask `0x28`, it decodes to the same
power level and to the rate that was set. -/
theorem rfSetupWithRate_facts : ∀ v < 256, ∀ r < 3,
    rfSetupWithRate v r < 256 ∧
    rfSetupWithRate v r &&& not8 0x28 = v &&& not8 0x28 ∧
    powerOfRfSetup (rfSetupWithRate v r) = powerOfRfSetup v ∧
    rateOfRfSetup (rfSetupWithRate v r) = r := by
  decide

set_option maxRecDepth 1000000 in
/-- Bit-level facts about the byte written by `setPowerLevel`: it is a byte, it
differs from the byte read only inside the mask `0x06`, it decodes to the same
data rate and to the level that was set. -/
theorem rfSetupWithPower_facts : ∀ v < 256, ∀ l < 4,
    rfSetupWithPower v l < 256 ∧
    rfSetupWithPower v l &&& not8 0x06 = v &&& not8 0x06 ∧
    rateOfRfSetup (rfSetupWithPower v l) = rateOfRfSetup v ∧
    powerOfRfSetup (rfSetupWithPower v l) = l := by
  decide

/-- Effect of `setDataRate` on an idle bus: RF_SETUP is read and rewritten
with the data-rate bits replaced; the rate is cached. -/
theorem setDataRate_eq (rate : Nat) (s : NRF24) (h : s.hw.csn = true) :
    setDataRate rate s =
      { s with
        hw := { s.hw with
          csn := true
          frame := []
          regs := fun r =>
            if r = NRF_RF_SETUP_REGISTER then
              [rfSetupWithRate ((s.hw.regs NRF_RF_SETUP_REGISTER).getD 0 0 % 256) rate]
            else s.hw.regs r
          trace := s.hw.trace ++
            [Event.csn false, Event.mosi [NRF_RF_SETUP_REGISTER],
              Event.miso [(s.hw.regs NRF_RF_SETUP_REGISTER).getD 0 0 % 256], Event.csn true,
              Event.csn false, Event.mosi [NRF_W_REGISTER ||| NRF_RF_SETUP_REGISTER],
              Event.mosi
                [rfSetupWithRate ((s.hw.regs NRF_RF_SETUP_REGISTER).getD 0 0 % 256) rate],
              Event.csn true] }
        data_rate := rate % 256 } := by
  simp only [setDataRate]
  rw [readReg_reg _ _ h (by decide) (by decide)]
  simp only []
  rw [writeReg_eq _ _ _ rfl (by decide)]
  simp only [rfSetupWithRate, List.append_assoc, List.cons_append, List.nil_append]

/-- Effect of `setPowerLevel` on an idle bus: RF_SETUP is read and rewritten
with the power bits replaced; the level is cached. -/
theorem setPowerLevel_eq (level : Nat) (s : NRF24) (h : s.hw.csn = true) :
    setPowerLevel level s =
      { s with
        hw := { s.hw with
          csn := true
          frame := []
          regs := fun r =>
            if r = NRF_RF_SETUP_REGISTER then
              [rfSetupWithPower ((s.hw.regs NRF_RF_SETUP_REGISTER).getD 0 0 % 256) level]
            else s.hw.regs r
          trace := s.hw.trace ++
            [Event.csn false, Event.mosi [NRF_RF_SETUP_REGISTER],
              Event.miso [(s.hw.regs NRF_RF_SETUP_REGISTER).getD 0 0 % 256], Event.csn true,
              Event.csn false, Event.mosi [NRF_W_REGISTER ||| NRF_RF_SETUP_REGISTER],
              Event.mosi
                [rfSetupWithPower ((s.hw.regs NRF_RF_SETUP_REGISTER).getD 0 0 % 256) level],
              Event.csn true] }
        tx_power := level % 256 } := by
  simp only [setPowerLevel]
  rw [readReg_reg _ _ h (by decide) (by decide)]
  simp only []
  rw [writeReg_eq _ _ _ rfl (by decide)]
  simp only [rfSetupWithPower, List.append_assoc, List.cons_append, List.nil_append]

/-- The result of `getDataRate()` is decoded from the byte read from RF_SETUP. -/
theorem getDataRate_fst (s : NRF24) :
    (getDataRate s).1 = rateOfRfSetup (readReg NRF_RF_SETUP_REGISTER s).1 := by
  simp only [getDataRate, rateOfRfSetup]
  split
  · rfl
  · split <;> rfl

/-- The result of `getPowerLevel()` is decoded from the byte read from RF_SETUP. -/
theorem getPowerLevel_fst (s : NRF24) :
    (getPowerLevel s).1 = powerOfRfSetup (readReg NRF_RF_SETUP_REGISTER s).1 := rfl

/-- C18. On an idle bus, for every RF_SETUP register value, every data rate `r`
(one of the three enumerators) and every power level `l` (one of the four
enumerators): `setDataRate(r)` changes the register only inside the mask
`0x28`, so `getPowerLevel()` is unchanged; `setPowerLevel(l)` changes it only
inside the mask `0x06`, so `getDataRate()` is unchanged; and each setter
round-trips through its getter. -/
theorem rf_setup_fields_independent (s : NRF24) (r l : Nat) (hidle : s.hw.csn = true)
    (hr : r ≤ 2) (hl : l ≤ 3) :
    (readReg NRF_RF_SETUP_REGISTER (setDataRate r s)).1 &&& not8 0x28 =
      (readReg NRF_RF_SETUP_REGISTER s).1 &&& not8 0x28 ∧
    (getPowerLevel (setDataRate r s)).1 = (getPowerLevel s).1 ∧
    (getDataRate (setDataRate r s)).1 = r ∧
    (readReg NRF_RF_SETUP_REGISTER (setPowerLevel l s)).1 &&& not8 0x06 =
      (readReg NRF_RF_SETUP_REGISTER s).1 &&& not8 0x06 ∧
    (getDataRate (setPowerLevel l s)).1 = (getDataRate s).1 ∧
    (getPowerLevel (setPowerLevel l s)).1 = l := by
  have hv : (s.hw.regs NRF_RF_SETUP_REGISTER).getD 0 0 % 256 < 256 := Nat.mod_lt _ (by decide)
  obtain ⟨r1, r2, r3, r4⟩ := rfSetupWithRate_facts _ hv r (by omega)
  obtain ⟨p1, p2, p3, p4⟩ := rfSetupWithPower_facts _ hv l (by omega)
  have hold : (readReg NRF_RF_SETUP_REGISTER s).1 =
      (s.hw.regs NRF_RF_SETUP_REGISTER).getD 0 0 % 256 := by
    rw [readReg_reg _ _ hidle (by decide) (by decide)]
  have hnr : (readReg NRF_RF_SETUP_REGISTER (setDataRate r s)).1 =
      rfSetupWithRate ((s.hw.regs NRF_RF_SETUP_REGISTER).getD 0 0 % 256) r := by
    rw [setDataRate_eq r s hidle, readReg_reg _ _ rfl (by decide) (by decide)]
    simpa using Nat.mod_eq_of_lt r1
  have hnp : (readReg NRF_RF_SETUP_REGISTER (setPowerLevel l s)).1 =
      rfSetupWithPower ((s.hw.regs NRF_RF_SETUP_REGISTER).getD 0 0 % 256) l := by
    rw [setPowerLevel_eq l s hidle, readReg_reg _ _ rfl (by decide) (by decide)]
    simpa using Nat.mod_eq_of_lt p1
  rw [getPowerLevel_fst, getPowerLevel_fst, getPowerLevel_fst, getDataRate_fst,
    getDataRate_fst, getDataRate_fst, hnr, hnp, hold]
  exact ⟨r2, r3, r4, p2, p3, p4⟩

/-- An instance of C18: on a driver just reset (RF_SETUP holds `0x0E`),
`setDataRate(250 kbps)` leaves the power level at 3 and reads back as 250 kbps,
and `setPowerLevel(1)` leaves the data rate at 2 Mbps and reads back as 1. -/
theorem rf_setup_fields_independent_witness :
    (getPowerLevel (setDataRate NRF24_DATA_RATE_250KBPS
      (reset (ctor (Hardware.powerOn (fun _ => 0x0E)))))).1 =
      (getPowerLevel (reset (ctor (Hardware.powerOn (fun _ => 0x0E))))).1 ∧
    (getDataRate (setDataRate NRF24_DATA_RATE_250KBPS
      (reset (ctor (Hardware.powerOn (fun _ => 0x0E)))))).1 = NRF24_DATA_RATE_250KBPS ∧
    (getDataRate (setPowerLevel 1
      (reset (ctor (Hardware.powerOn (fun _ => 0x0E)))))).1 =
      (getDataRate (reset (ctor (Hardware.powerOn (fun _ => 0x0E))))).1 ∧
    (getPowerLevel (setPowerLevel 1
      (reset (ctor (Hardware.powerOn (fun _ => 0x0E)))))).1 = 1 :=
  ⟨(rf_setup_fields_independent (reset (ctor (Hardware.powerOn (fun _ => 0x0E))))
      NRF24_DATA_RATE_250KBPS 1 (by decide) (by decide) (by decide)).2.1,
   (rf_setup_fields_independent (reset (ctor (Hardware.powerOn (fun _ => 0x0E))))
      NRF24_DATA_RATE_250KBPS 1 (by decide) (by decide) (by decide)).2.2.1,
   (rf_setup_fields_independent (reset (ctor (Hardware.powerOn (fun _ => 0x0E))))
      NRF24_DATA_RATE_250KBPS 1 (by decide) (by decide) (by decide)).2.2.2.2.1,
   (rf_setup_fields_independent (reset (ctor (Hardware.powerOn (fun _ => 0x0E))))
      NRF24_DATA_RATE_250KBPS 1 (by decide) (by decide) (by decide)).2.2.2.2.2⟩

/-! ## Claims about the transmit address -/

/-- C16. On an idle bus, for every address `a` holding at least `w` bytes, where
`w >= 1` is the current address width, `setTxAddress(a)` writes the first `w`
bytes of `a` to the TX_ADDR register and to the RX_ADDR_P0 register (two
frames, whatever pipe 0 held before), and a following `getTxAddress` fills the
first `w` bytes of the caller's buffer with those same bytes. -/
theorem setTxAddress_spec (a out : List Nat) (s : NRF24) (hidle : s.hw.csn = true)
    (hw : 0 < s.address_width) (ha : s.address_width ≤ a.length) :
    (setTxAddress a s).hw.regs NRF_TX_ADDR_REGISTER = a.take s.address_width ∧
    (setTxAddress a s).hw.regs NRF_RX_ADDR_P0_REGISTER = a.take s.address_width ∧
    (setTxAddress a s).hw.trace =
      s.hw.trace ++
        [Event.csn false, Event.mosi [NRF_W_REGISTER ||| NRF_TX_ADDR_REGISTER],
          Event.mosi (a.take s.address_width), Event.csn true,
          Event.csn false, Event.mosi [NRF_W_REGISTER ||| NRF_RX_ADDR_P0_REGISTER],
          Event.mosi (a.take s.address_width), Event.csn true] ∧
    (getTxAddress out (setTxAddress a s)).take s.address_width = a.take s.address_width := by
  have hlen : (a.take s.address_width).length = s.address_width := by
    rw [List.length_take]
    omega
  have hne : a.take s.address_width ≠ [] := by
    intro h0
    rw [h0] at hlen
    simp at hlen
    omega
  simp only [setTxAddress]
  rw [writeRegBuf_eq _ _ _ s hidle (by decide) hne]
  simp only []
  rw [writeRegBuf_eq _ _ _ _ rfl (by decide) hne]
  refine ⟨by simp +decide [NRF_TX_ADDR_REGISTER, NRF_RX_ADDR_P0_REGISTER],
    by simp [NRF_RX_ADDR_P0_REGISTER], by simp, ?_⟩
  simp only [getTxAddress, memcpy]
  rw [List.take_left' hlen]
  exact List.take_left' hlen

/-- An instance of C16: on a fresh driver (address width 5),
`setTxAddress({1,2,3,4,5})` leaves TX_ADDR and RX_ADDR_P0 holding those five
bytes and `getTxAddress` returns them. -/
theorem setTxAddress_spec_witness :
    (setTxAddress [1, 2, 3, 4, 5]
      (ctor (Hardware.powerOn (fun _ => 0x0E)))).hw.regs NRF_TX_ADDR_REGISTER = [1, 2, 3, 4, 5] ∧
    (setTxAddress [1, 2, 3, 4, 5]
      (ctor (Hardware.powerOn (fun _ => 0x0E)))).hw.regs NRF_RX_ADDR_P0_REGISTER =
        [1, 2, 3, 4, 5] ∧
    (getTxAddress [0, 0, 0, 0, 0] (setTxAddress [1, 2, 3, 4, 5]
      (ctor (Hardware.powerOn (fun _ => 0x0E))))).take 5 = [1, 2, 3, 4, 5] :=
  ⟨(setTxAddress_spec [1, 2, 3, 4, 5] [0, 0, 0, 0, 0]
      (ctor (Hardware.powerOn (fun _ => 0x0E))) rfl (by decide) (by decide)).1,
   (setTxAddress_spec [1, 2, 3, 4, 5] [0, 0, 0, 0, 0]
      (ctor (Hardware.powerOn (fun _ => 0x0E))) rfl (by decide) (by decide)).2.1,
   (setTxAddress_spec [1, 2, 3, 4, 5] [0, 0, 0, 0, 0]
      (ctor (Hardware.powerOn (fun _ => 0x0E))) rfl (by decide) (by decide)).2.2.2⟩

/-! ## Claims about the payload size -/

/-- The function `setPayloadSize` clamps, caches the size and runs its loop body over
the pipe indices 0 to 5. -/
theorem setPayloadSize_eq_foldl (size : Nat) (s : NRF24) :
    setPayloadSize size s =
      List.foldl (setPayloadSizeStep (min size 32))
        { s with payload_size := min size 32, messageLen := min size 32 } (List.range 6) := by
  have hmin : (if size > NRF_MAX_PAYLOAD_SIZE then NRF_MAX_PAYLOAD_SIZE else size) = min size 32 := by
    unfold NRF_MAX_PAYLOAD_SIZE
    split <;> omega
  simp only [setPayloadSize, hmin]
  rfl

/-- The loop of `setPayloadSize` over a list of pipe indices, on an idle bus:
the bus stays idle, the enabled-pipe mask and the device-wide size are not
touched, and exactly the pipes of the list whose mask bit is set get `size` in
their width register and in their cached payload size. -/
theorem setPayloadSize_loop (size : Nat) : ∀ (l : List Nat) (s : NRF24), s.hw.csn = true →
    (∀ i ∈ l, i < 6) →
    (List.foldl (setPayloadSizeStep size) s l).hw.csn = true ∧
    (List.foldl (setPayloadSizeStep size) s l).rx_pipe_enabled = s.rx_pipe_enabled ∧
    (List.foldl (setPayloadSizeStep size) s l).payload_size = s.payload_size ∧
    (∀ i, (List.foldl (setPayloadSizeStep size) s l).hw.regs (NRF_RX_PW_P0_REGISTER + i) =
      if i ∈ l ∧ s.rx_pipe_enabled &&& (1 <<< i) ≠ 0 then [size]
      else s.hw.regs (NRF_RX_PW_P0_REGISTER + i)) ∧
    (∀ i, ((List.foldl (setPayloadSizeStep size) s l).pipes i).payload_size =
      if i ∈ l ∧ s.rx_pipe_enabled &&& (1 <<< i) ≠ 0 then size
      else (s.pipes i).payload_size) := by
  intro l
  induction l with
  | nil =>
    intro s h _
    simp [h]
  | cons a l ih =>
    intro s h hl
    have ha : a < 6 := hl a (List.mem_cons_self a l)
    have hl2 : ∀ i ∈ l, i < 6 := fun i hi => hl i (List.mem_cons_of_mem a hi)
    rw [List.foldl_cons]
    by_cases hb : s.rx_pipe_enabled &&& (1 <<< a) ≠ 0
    · have hstep : setPayloadSizeStep size s a =
          { s with
            hw := { s.hw with
              csn := true
              frame := []
              regs := fun r => if r = NRF_RX_PW_P0_REGISTER + a then [size] else s.hw.regs r
              trace := s.hw.trace ++
                [Event.csn false, Event.mosi [NRF_W_REGISTER ||| (NRF_RX_PW_P0_REGISTER + a)],
                  Event.mosi [size], Event.csn true] }
            pipes := fun j =>
              if j = a then { s.pipes a with payload_size := size } else s.pipes j } := by
        rw [setPayloadSizeStep, if_pos hb]
        simp only []
        rw [writeReg_eq _ _ s h (by unfold NRF_RX_PW_P0_REGISTER; omega)]
      have hre : (setPayloadSizeStep size s a).rx_pipe_enabled = s.rx_pipe_enabled := by
        rw [hstep]
      have hps : (setPayloadSizeStep size s a).payload_size = s.payload_size := by
        rw [hstep]
      have hregs : ∀ i, (setPayloadSizeStep size s a).hw.regs (NRF_RX_PW_P0_REGISTER + i) =
          if i = a then [size] else s.hw.regs (NRF_RX_PW_P0_REGISTER + i) := by
        intro i
        rw [hstep]
        simp [NRF_RX_PW_P0_REGISTER]
      have hpipes : ∀ i, ((setPayloadSizeStep size s a).pipes i).payload_size =
          if i = a then size else (s.pipes i).payload_size := by
        intro i
        rw [hstep]
        by_cases hia : i = a <;> simp [hia]
      obtain ⟨i1, i2, i3, i4, i5⟩ := ih (setPayloadSizeStep size s a) (by rw [hstep]) hl2
      refine ⟨i1, i2.trans hre, i3.trans hps, ?_, ?_⟩
      · intro i
        rw [i4 i, hre, hregs i]
        by_cases hia : i = a
        · subst hia
          by_cases hm : i ∈ l <;> simp [hm, hb]
        · by_cases hm : i ∈ l <;> simp [hm, hia]
      · intro i
        rw [i5 i, hre, hpipes i]
        by_cases hia : i = a
        · subst hia
          by_cases hm : i ∈ l <;> simp [hm, hb]
        · by_cases hm : i ∈ l <;> simp [hm, hia]
    · have hstep : setPayloadSizeStep size s a = s := by
        rw [setPayloadSizeStep, if_neg hb]
      rw [hstep]
      obtain ⟨i1, i2, i3, i4, i5⟩ := ih s h hl2
      refine ⟨i1, i2, i3, ?_, ?_⟩
      · intro i
        rw [i4 i]
        by_cases hia : i = a
        · subst hia
          by_cases hm : i ∈ l <;> simp [hm, hb]
        · by_cases hm : i ∈ l <;> simp [hm, hia]
      · intro i
        rw [i5 i]
        by_cases hia : i = a
        · subst hia
          by_cases hm : i ∈ l <;> simp [hm, hb]
        · by_cases hm : i ∈ l <;> simp [hm, hia]

/-- C12. On an idle bus, for every `size`, `setPayloadSize(size)` sets the
device-wide default so that `getPayloadSize()` returns `min(size, 32)`; for
every pipe `i < 6` whose bit is set in the enabled-pipe mask `rx_pipe_enabled`
it leaves `min(size, 32)` in RX_PW_Pi and in that pipe's cached payload size;
and a pipe whose bit is clear keeps its register and cached payload size. -/
theorem setPayloadSize_spec (size : Nat) (s : NRF24) (hidle : s.hw.csn = true) :
    getPayloadSize (setPayloadSize size s) = min size 32 ∧
    ∀ i < 6,
      (s.rx_pipe_enabled &&& (1 <<< i) ≠ 0 →
        (setPayloadSize size s).hw.regs (NRF_RX_PW_P0_REGISTER + i) = [min size 32] ∧
        ((setPayloadSize size s).pipes i).payload_size = min size 32) ∧
      (s.rx_pipe_enabled &&& (1 <<< i) = 0 →
        (setPayloadSize size s).hw.regs (NRF_RX_PW_P0_REGISTER + i) =
          s.hw.regs (NRF_RX_PW_P0_REGISTER + i) ∧
        ((setPayloadSize size s).pipes i).payload_size = (s.pipes i).payload_size) := by
  obtain ⟨-, -, h3, h4, h5⟩ := setPayloadSize_loop (min size 32) (List.range 6)
    { s with payload_size := min size 32, messageLen := min size 32 } hidle
    (fun i hi => List.mem_range.mp hi)
  rw [setPayloadSize_eq_foldl]
  refine ⟨h3, ?_⟩
  intro i hi
  have hm : i ∈ List.range 6 := List.mem_range.mpr hi
  constructor
  · intro hb
    rw [h4 i, h5 i]
    simp [hm, hb]
  · intro hb
    rw [h4 i, h5 i]
    simp [hb]

/-- An instance of C12: after `reset()` (pipes 0 and 1 enabled),
`setPayloadSize(40)` gives `getPayloadSize() = 32`, and `setPayloadSize(16)`
leaves 16 in RX_PW_P1 and in the cache of pipe 1 while RX_PW_P2 keeps the 32
written by `reset()`. -/
theorem setPayloadSize_spec_witness :
    getPayloadSize (setPayloadSize 40 (reset (ctor (Hardware.powerOn (fun _ => 0x0E))))) = 32 ∧
    (setPayloadSize 16 (reset (ctor (Hardware.powerOn (fun _ => 0x0E))))).hw.regs
      NRF_RX_PW_P1_REGISTER = [16] ∧
    ((setPayloadSize 16 (reset (ctor (Hardware.powerOn (fun _ => 0x0E))))).pipes 1).payload_size
      = 16 ∧
    (setPayloadSize 16 (reset (ctor (Hardware.powerOn (fun _ => 0x0E))))).hw.regs
      NRF_RX_PW_P2_REGISTER = [32] :=
  ⟨(setPayloadSize_spec 40 (reset (ctor (Hardware.powerOn (fun _ => 0x0E)))) (by decide)).1,
   (((setPayloadSize_spec 16 (reset (ctor (Hardware.powerOn (fun _ => 0x0E)))) (by decide)).2
      1 (by decide)).1 (by decide)).1,
   (((setPayloadSize_spec 16 (reset (ctor (Hardware.powerOn (fun _ => 0x0E)))) (by decide)).2
      1 (by decide)).1 (by decide)).2,
   ((((setPayloadSize_spec 16 (reset (ctor (Hardware.powerOn (fun _ => 0x0E)))) (by decide)).2
      2 (by decide)).2 (by decide)).1).trans (by decide)⟩

/-! ## The deadline of `write` -/

/-- The polling loop of `write`, entered with the counter at `timeout` and
`n = 10000 - timeout` on an idle bus, makes at least one and at most `n + 1`
status reads, whatever the chip answers, and leaves the bus idle; when it
gives up it has made exactly `n + 1` reads and its last frame is flush-TX. -/
theorem write_wait_reads (n : Nat) : ∀ (timeout : Nat) (s : NRF24), s.hw.csn = true →
    timeout + n = 10000 →
    (write_wait timeout s).2.hw.csn = true ∧
    s.hw.status_pos + 1 ≤ (write_wait timeout s).2.hw.status_pos ∧
    (write_wait timeout s).2.hw.status_pos ≤ s.hw.status_pos + (n + 1) ∧
    ((write_wait timeout s).1 = false →
      (write_wait timeout s).2.hw.status_pos = s.hw.status_pos + (n + 1) ∧
      ∃ pre, (write_wait timeout s).2.hw.trace =
        pre ++ [Event.csn false, Event.mosi [NRF_FLUSH_TX], Event.csn true]) := by
  have hc0 : ∀ s : NRF24, s.hw.csn = true →
      (readReg NRF_STATUS_REGISTER s).2.hw.csn = true ∧
      (readReg NRF_STATUS_REGISTER s).2.hw.status_pos = s.hw.status_pos + 1 ∧
      (sleep_us 1 (readReg NRF_STATUS_REGISTER s).2).hw.csn = true ∧
      (sleep_us 1 (readReg NRF_STATUS_REGISTER s).2).hw.status_pos = s.hw.status_pos + 1 := by
    intro s h
    rw [readReg_status s h]
    exact ⟨rfl, rfl, rfl, rfl⟩
  induction n with
  | zero =>
    intro timeout s h hk
    obtain ⟨c1, c2, c3, c4⟩ := hc0 s h
    rw [write_wait]
    by_cases hf : (readReg NRF_STATUS_REGISTER s).1 &&& (NRF_STATUS_TX_DS ||| NRF_STATUS_MAX_RT) ≠ 0
    · rw [if_pos hf]
      exact ⟨c1, by simp only []; omega, by simp only []; omega,
        fun hfalse => absurd hfalse (by simp)⟩
    · have hk1 : timeout + 1 > 10000 := by omega
      rw [if_neg hf, if_pos hk1, flushTx_eq _ c3]
      exact ⟨rfl, by simp only []; omega, by simp only []; omega,
        fun _ => ⟨by simp only []; omega, ⟨_, rfl⟩⟩⟩
  | succ n ih =>
    intro timeout s h hk
    obtain ⟨c1, c2, c3, c4⟩ := hc0 s h
    rw [write_wait]
    by_cases hf : (readReg NRF_STATUS_REGISTER s).1 &&& (NRF_STATUS_TX_DS ||| NRF_STATUS_MAX_RT) ≠ 0
    · rw [if_pos hf]
      exact ⟨c1, by simp only []; omega, by simp only []; omega,
        fun hfalse => absurd hfalse (by simp)⟩
    · have hk1 : ¬ timeout + 1 > 10000 := by omega
      rw [if_neg hf, if_neg hk1]
      obtain ⟨i1, i2, i3, i4⟩ := ih (timeout + 1)
        (sleep_us 1 (readReg NRF_STATUS_REGISTER s).2) c3 (by omega)
      rw [c4] at i2 i3 i4
      refine ⟨i1, by omega, by omega, fun hfalse => ?_⟩
      obtain ⟨j1, j2⟩ := i4 hfalse
      exact ⟨by omega, j2⟩

/-- On an idle bus `startWrite` makes no status read and leaves the bus idle,
whether it accepts the payload or not. -/
theorem startWrite_idle (data : List Nat) (len : Nat) (multicast : Bool) (s : NRF24)
    (h : s.hw.csn = true) :
    (startWrite data len multicast s).hw.csn = true ∧
    (startWrite data len multicast s).hw.status_pos = s.hw.status_pos := by
  by_cases hlen : len ≤ 32
  · rw [startWrite_eq data len multicast s h hlen]
    exact ⟨rfl, rfl⟩
  · have hl : len > NRF_MAX_PAYLOAD_SIZE := by
      unfold NRF_MAX_PAYLOAD_SIZE
      omega
    have hs : startWrite data len multicast s = s := by
      simp [startWrite, hl]
    rw [hs]
    exact ⟨h, rfl⟩

/-- C20. `write()` has no unbounded wait.  `write` and its poll loop
`write_wait` are total functions (the loop recurses on `10001 - timeout`), so
every call returns.  On an idle bus, for every payload and every sequence of
status bytes: the poll loop entered by `write` makes at most 10001 status
reads; when it gives up it has made exactly 10001 and `write` then returns
`false` with flush-TX as its last frame; and the whole call makes at most
10002 status reads (the loop's and the one that is evaluated after it). -/
theorem write_poll_bounded (data : List Nat) (len : Nat) (multicast : Bool) (s : NRF24)
    (hidle : s.hw.csn = true) :
    (write_wait 0 (startWrite data len multicast s)).2.hw.status_pos ≤
      (startWrite data len multicast s).hw.status_pos + 10001 ∧
    (write data len multicast s).2.hw.status_pos ≤ s.hw.status_pos + 10002 ∧
    (len ≤ 32 → (write_wait 0 (startWrite data len multicast s)).1 = false →
      (write data len multicast s).1 = false ∧
      (write data len multicast s).2.hw.status_pos = s.hw.status_pos + 10001 ∧
      ∃ pre, (write data len multicast s).2.hw.trace =
        pre ++ [Event.csn false, Event.mosi [NRF_FLUSH_TX], Event.csn true]) := by
  obtain ⟨hc, hp⟩ := startWrite_idle data len multicast s hidle
  obtain ⟨w1, w2, w3, w4⟩ := write_wait_reads 10000 0 (startWrite data len multicast s) hc rfl
  rw [hp] at w2 w3 w4
  refine ⟨by rw [hp]; exact w3, ?_, ?_⟩
  · by_cases hlen : len ≤ 32
    · rw [write_eq_startWrite data len multicast s hlen]
      by_cases hw : (write_wait 0 (startWrite data len multicast s)).1 = false
      · rw [if_pos hw]
        simp only []
        omega
      · rw [if_neg hw, readReg_status _ w1]
        simp only []
        rw [clearInterrupts_eq _ rfl]
        split <;> (simp only []; omega)
    · have hl : len > NRF_MAX_PAYLOAD_SIZE := by
        unfold NRF_MAX_PAYLOAD_SIZE
        omega
      have hs : write data len multicast s = (false, s) := by
        simp [write, hl]
      rw [hs]
      simp only []
      omega
  · intro hlen hw
    obtain ⟨j1, j2⟩ := w4 hw
    rw [write_eq_startWrite data len multicast s hlen, if_pos hw]
    exact ⟨rfl, j1, j2⟩

/-- An instance of C20: a 32-byte `write` on a fresh driver whose chip never
shows `TX_DS` or `MAX_RT` ends after at most 10002 status reads. -/
theorem write_poll_bounded_witness :
    (write (List.replicate 32 0xAB) 32 false
      (ctor (Hardware.powerOn (fun _ => 0x0E)))).2.hw.status_pos ≤ 10002 :=
  (write_poll_bounded (List.replicate 32 0xAB) 32 false
    (ctor (Hardware.powerOn (fun _ => 0x0E))) rfl).2.1

/-! ## Range invariant of the cached configuration -/

/-- A register read changes the hardware only. -/
theorem readReg_cached (reg : Nat) (s : NRF24) :
    (readReg reg s).2 = { s with hw := (readReg reg s).2.hw } := rfl

/-- A register write changes the hardware only. -/
theorem writeRegBuf_cached (reg : Nat) (data : List Nat) (size : Nat) (s : NRF24) :
    writeRegBuf reg data size s = { s with hw := (writeRegBuf reg data size s).hw } := rfl

/-- A one-byte register write changes the hardware only. -/
theorem writeReg_cached (reg data : Nat) (s : NRF24) :
    writeReg reg data s = { s with hw := (writeReg reg data s).hw } := rfl

/-- Cached fields after `setChannel`, on any bus state: the cached channel is
the clamped argument, the payload sizes are untouched. -/
theorem setChannel_cached (channel : Nat) (s : NRF24) :
    (setChannel channel s).channel = min channel 125 ∧
    (setChannel channel s).payload_size = s.payload_size ∧
    (setChannel channel s).pipes = s.pipes := by
  refine ⟨?_, rfl, rfl⟩
  show (if channel > NRF_MAX_CHANNEL then NRF_MAX_CHANNEL else channel) = min channel 125
  unfold NRF_MAX_CHANNEL
  split <;> omega

/-- Cached fields after `setFrequency`, on any bus state. -/
theorem setFrequency_cached (frequency_mhz : Nat) (s : NRF24) :
    ((setFrequency frequency_mhz s).channel = s.channel ∨
      (setFrequency frequency_mhz s).channel ≤ 125) ∧
    (setFrequency frequency_mhz s).payload_size = s.payload_size ∧
    (setFrequency frequency_mhz s).pipes = s.pipes := by
  unfold setFrequency
  split
  · exact ⟨Or.inl rfl, rfl, rfl⟩
  · obtain ⟨h1, h2, h3⟩ := setChannel_cached ((frequency_mhz - 2400) % 256) s
    refine ⟨Or.inr ?_, h2, h3⟩
    simp only []
    rw [h1]
    omega

/-- Cached fields after one round of the loop of `setPayloadSize`, on any bus
state. -/
theorem setPayloadSizeStep_cached (size : Nat) (s : NRF24) (i : Nat) :
    (setPayloadSizeStep size s i).channel = s.channel ∧
    (setPayloadSizeStep size s i).payload_size = s.payload_size ∧
    ∀ j, ((setPayloadSizeStep size s i).pipes j).payload_size = size ∨
      ((setPayloadSizeStep size s i).pipes j).payload_size = (s.pipes j).payload_size := by
  unfold setPayloadSizeStep
  split
  · refine ⟨rfl, rfl, fun j => ?_⟩
    by_cases hj : j = i
    · left
      simp only [hj, if_true]
    · right
      simp only [hj, if_false]
      rfl
  · exact ⟨rfl, rfl, fun j => Or.inr rfl⟩

/-- Cached fields after the loop of `setPayloadSize` over any list of pipe
indices, on any bus state. -/
theorem setPayloadSize_fold_cached (size : Nat) (l : List Nat) :
    ∀ s : NRF24,
      (l.foldl (setPayloadSizeStep size) s).channel = s.channel ∧
      (l.foldl (setPayloadSizeStep size) s).payload_size = s.payload_size ∧
      ∀ j, ((l.foldl (setPayloadSizeStep size) s).pipes j).payload_size = size ∨
        ((l.foldl (setPayloadSizeStep size) s).pipes j).payload_size =
          (s.pipes j).payload_size := by
  induction l with
  | nil => exact fun s => ⟨rfl, rfl, fun j => Or.inr rfl⟩
  | cons a l ih =>
    intro s
    obtain ⟨a1, a2, a3⟩ := setPayloadSizeStep_cached size s a
    obtain ⟨b1, b2, b3⟩ := ih (setPayloadSizeStep size s a)
    rw [List.foldl_cons]
    refine ⟨b1.trans a1, b2.trans a2, fun j => ?_⟩
    rcases b3 j with hb | hb
    · exact Or.inl hb
    · rcases a3 j with ha | ha
      · exact Or.inl (hb.trans ha)
      · exact Or.inr (hb.trans ha)

/-- Cached fields after `setPayloadSize(size)`, on any bus state: the
device-wide size is the clamped argument, and each pipe holds either the
clamped argument or what it held before. -/
theorem setPayloadSize_cached (size : Nat) (s : NRF24) :
    (setPayloadSize size s).channel = s.channel ∧
    (setPayloadSize size s).payload_size = min size 32 ∧
    ∀ j, ((setPayloadSize size s).pipes j).payload_size = min size 32 ∨
      ((setPayloadSize size s).pipes j).payload_size = (s.pipes j).payload_size := by
  rw [setPayloadSize_eq_foldl]
  exact setPayloadSize_fold_cached (min size 32) (List.range 6)
    { s with payload_size := min size 32, messageLen := min size 32 }

/-- Cached fields after `setPayloadSize(pipe, size)`, on any bus state. -/
theorem setPayloadSizePipe_cached (pipe size : Nat) (s : NRF24) :
    (setPayloadSizePipe pipe size s).channel = s.channel ∧
    (setPayloadSizePipe pipe size s).payload_size = s.payload_size ∧
    ∀ j, ((setPayloadSizePipe pipe size s).pipes j).payload_size ≤ 32 ∨
      ((setPayloadSizePipe pipe size s).pipes j).payload_size = (s.pipes j).payload_size := by
  unfold setPayloadSizePipe
  split
  · exact ⟨rfl, rfl, fun j => Or.inr rfl⟩
  · rename_i hg
    refine ⟨rfl, rfl, fun j => ?_⟩
    by_cases hj : j = pipe
    · left
      simp only [hj, if_true]
      unfold NRF_MAX_PAYLOAD_SIZE at hg
      omega
    · right
      simp only [hj, if_false]
      rfl

/-- Cached fields after `openReadingPipe`, on any bus state: the opened pipe
takes the device-wide payload size, every other pipe keeps its own. -/
theorem openReadingPipe_cached (pipe : Nat) (address : List Nat) (s : NRF24) :
    (openReadingPipe pipe address s).channel = s.channel ∧
    (openReadingPipe pipe address s).payload_size = s.payload_size ∧
    ∀ j, ((openReadingPipe pipe address s).pipes j).payload_size = s.payload_size ∨
      ((openReadingPipe pipe address s).pipes j).payload_size = (s.pipes j).payload_size := by
  unfold openReadingPipe
  by_cases hp : pipe ≥ NRF_MAX_PIPES
  · rw [if_pos hp]
    exact ⟨rfl, rfl, fun j => Or.inr rfl⟩
  · rw [if_neg hp]
    by_cases h1 : pipe ≤ 1
    · simp only [h1, if_true]
      refine ⟨rfl, rfl, fun j => ?_⟩
      by_cases hj : j = pipe
      · left
        simp only [hj, if_true]
        rfl
      · right
        simp only [hj, if_false]
        rfl
    · simp only [h1, if_false]
      refine ⟨rfl, rfl, fun j => ?_⟩
      by_cases hj : j = pipe
      · left
        simp only [hj, if_true]
        rfl
      · right
        simp only [hj, if_false]
        rfl

/-- Cached fields after `closePipe`, on any bus state. -/
theorem closePipe_cached (pipe : Nat) (s : NRF24) :
    (closePipe pipe s).channel = s.channel ∧
    (closePipe pipe s).payload_size = s.payload_size ∧
    (closePipe pipe s).pipes = s.pipes := by
  unfold closePipe
  split
  · exact ⟨rfl, rfl, rfl⟩
  · exact ⟨rfl, rfl, rfl⟩

/-- Cached fields after `reset`, on any bus state. -/
theorem reset_cached (s : NRF24) :
    (reset s).channel = 2 ∧ (reset s).payload_size = 32 ∧ (reset s).pipes = s.pipes :=
  ⟨rfl, rfl, rfl⟩

/-- Cached fields after `setAddressWidth`, on any bus state. -/
theorem setAddressWidth_cached (width : Nat) (s : NRF24) :
    (setAddressWidth width s).channel = s.channel ∧
    (setAddressWidth width s).payload_size = s.payload_size ∧
    (setAddressWidth width s).pipes = s.pipes :=
  ⟨rfl, rfl, rfl⟩

/-- Cached fields after `setTxAddress`, on any bus state. -/
theorem setTxAddress_cached (address : List Nat) (s : NRF24) :
    (setTxAddress address s).channel = s.channel ∧
    (setTxAddress address s).payload_size = s.payload_size ∧
    (setTxAddress address s).pipes = s.pipes :=
  ⟨rfl, rfl, rfl⟩

/-- Cached fields after `config`, on any bus state and whatever the cached
fields were before: the closing setter calls clamp both arguments. -/
theorem config_cached (address : List Nat) (channel messageLen : Nat) (s : NRF24) :
    (config address channel messageLen s).channel ≤ 125 ∧
    (config address channel messageLen s).payload_size ≤ 32 ∧
    ∀ j, ((config address channel messageLen s).pipes j).payload_size ≤ 32 ∨
      ((config address channel messageLen s).pipes j).payload_size =
        (s.pipes j).payload_size := by
  unfold config
  simp only []
  generalize hs0 : writeReg NRF_RX_PW_P0_REGISTER messageLen _ = s0
  have hp : s0.pipes = s.pipes := by
    rw [← hs0]
    rfl
  obtain ⟨a1, a2, a3⟩ := setChannel_cached channel s0
  obtain ⟨b1, b2, b3⟩ := setPayloadSize_cached messageLen (setChannel channel s0)
  obtain ⟨c1, c2, c3⟩ := setAddressWidth_cached NRF24_ADDR_WIDTH_5BYTES
    (setPayloadSize messageLen (setChannel channel s0))
  obtain ⟨d1, d2, d3⟩ := setTxAddress_cached address
    (setAddressWidth NRF24_ADDR_WIDTH_5BYTES
      (setPayloadSize messageLen (setChannel channel s0)))
  obtain ⟨e1, e2, e3⟩ := openReadingPipe_cached 0 address
    (setTxAddress address
      (setAddressWidth NRF24_ADDR_WIDTH_5BYTES
        (setPayloadSize messageLen (setChannel channel s0))))
  have hch : (setTxAddress address
      (setAddressWidth NRF24_ADDR_WIDTH_5BYTES
        (setPayloadSize messageLen (setChannel channel s0)))).channel = min channel 125 := by
    rw [d1, c1, b1, a1]
  have hps : (setTxAddress address
      (setAddressWidth NRF24_ADDR_WIDTH_5BYTES
        (setPayloadSize messageLen (setChannel channel s0)))).payload_size =
      min messageLen 32 := by
    rw [d2, c2, b2]
  refine ⟨?_, ?_, fun j => ?_⟩
  · rw [e1, hch]
    omega
  · rw [e2, hps]
    omega
  · rcases e3 j with h | h
    · left
      rw [h, hps]
      omega
    · rw [h, d3, c3]
      rcases b3 j with h2 | h2
      · left
        rw [h2]
        omega
      · right
        rw [h2, a3, hp]

/-- One configuration call keeps the cached configuration in range, on any
bus state. -/
theorem applyCall_cachedInRange (s : NRF24) (c : ConfigCall) (h : cachedInRange s) :
    cachedInRange (applyCall s c) := by
  obtain ⟨hc, hs, hp⟩ := h
  unfold NRF_MAX_CHANNEL at hc
  unfold NRF_MAX_PAYLOAD_SIZE at hs
  unfold NRF_MAX_PAYLOAD_SIZE NRF_MAX_PIPES at hp
  unfold cachedInRange NRF_MAX_CHANNEL NRF_MAX_PAYLOAD_SIZE NRF_MAX_PIPES
  cases c with
  | setChannel channel =>
    obtain ⟨a1, a2, a3⟩ := setChannel_cached channel s
    refine ⟨?_, ?_, fun i hi => ?_⟩
    · show (setChannel channel s).channel ≤ 125
      rw [a1]
      omega
    · show (setChannel channel s).payload_size ≤ 32
      rw [a2]
      exact hs
    · show ((setChannel channel s).pipes i).payload_size ≤ 32
      rw [a3]
      exact hp i hi
  | setFrequency frequency_mhz =>
    obtain ⟨a1, a2, a3⟩ := setFrequency_cached frequency_mhz s
    refine ⟨?_, ?_, fun i hi => ?_⟩
    · show (setFrequency frequency_mhz s).channel ≤ 125
      rcases a1 with h | h
      · rw [h]
        exact hc
      · exact h
    · show (setFrequency frequency_mhz s).payload_size ≤ 32
      rw [a2]
      exact hs
    · show ((setFrequency frequency_mhz s).pipes i).payload_size ≤ 32
      rw [a3]
      exact hp i hi
  | setPayloadSize size =>
    obtain ⟨a1, a2, a3⟩ := setPayloadSize_cached size s
    refine ⟨?_, ?_, fun i hi => ?_⟩
    · show (setPayloadSize size s).channel ≤ 125
      rw [a1]
      exact hc
    · show (setPayloadSize size s).payload_size ≤ 32
      rw [a2]
      omega
    · show ((setPayloadSize size s).pipes i).payload_size ≤ 32
      rcases a3 i with h | h
      · rw [h]
        omega
      · rw [h]
        exact hp i hi
  | setPayloadSizePipe pipe size =>
    obtain ⟨a1, a2, a3⟩ := setPayloadSizePipe_cached pipe size s
    refine ⟨?_, ?_, fun i hi => ?_⟩
    · show (setPayloadSizePipe pipe size s).channel ≤ 125
      rw [a1]
      exact hc
    · show (setPayloadSizePipe pipe size s).payload_size ≤ 32
      rw [a2]
      exact hs
    · show ((setPayloadSizePipe pipe size s).pipes i).payload_size ≤ 32
      rcases a3 i with h | h
      · exact h
      · rw [h]
        exact hp i hi
  | openReadingPipe pipe address =>
    obtain ⟨a1, a2, a3⟩ := openReadingPipe_cached pipe address s
    refine ⟨?_, ?_, fun i hi => ?_⟩
    · show (openReadingPipe pipe address s).channel ≤ 125
      rw [a1]
      exact hc
    · show (openReadingPipe pipe address s).payload_size ≤ 32
      rw [a2]
      exact hs
    · show ((openReadingPipe pipe address s).pipes i).payload_size ≤ 32
      rcases a3 i with h | h
      · rw [h]
        exact hs
      · rw [h]
        exact hp i hi
  | closePipe pipe =>
    obtain ⟨a1, a2, a3⟩ := closePipe_cached pipe s
    refine ⟨?_, ?_, fun i hi => ?_⟩
    · show (closePipe pipe s).channel ≤ 125
      rw [a1]
      exact hc
    · show (closePipe pipe s).payload_size ≤ 32
      rw [a2]
      exact hs
    · show ((closePipe pipe s).pipes i).payload_size ≤ 32
      rw [a3]
      exact hp i hi
  | reset =>
    obtain ⟨a1, a2, a3⟩ := reset_cached s
    refine ⟨?_, ?_, fun i hi => ?_⟩
    · show (reset s).channel ≤ 125
      rw [a1]
      omega
    · show (reset s).payload_size ≤ 32
      rw [a2]
    · show ((reset s).pipes i).payload_size ≤ 32
      rw [a3]
      exact hp i hi
  | config address channel messageLen =>
    obtain ⟨a1, a2, a3⟩ := config_cached address channel messageLen s
    refine ⟨a1, a2, fun i hi => ?_⟩
    show ((config address channel messageLen s).pipes i).payload_size ≤ 32
    rcases a3 i with h | h
    · exact h
    · rw [h]
      exact hp i hi

/-- Any sequence of configuration calls keeps the cached configuration in
range, on any bus state. -/
theorem applyCalls_cachedInRange (calls : List ConfigCall) :
    ∀ s : NRF24, cachedInRange s → cachedInRange (applyCalls calls s) := by
  induction calls with
  | nil => exact fun s h => h
  | cons c calls ih =>
    intro s h
    exact ih (applyCall s c) (applyCall_cachedInRange s c h)

/-- A freshly constructed driver has its cached configuration in range. -/
theorem ctor_cachedInRange (hw : Hardware) : cachedInRange (ctor hw) := by
  unfold cachedInRange NRF_MAX_CHANNEL NRF_MAX_PAYLOAD_SIZE NRF_MAX_PIPES
  refine ⟨?_, ?_, fun i _ => ?_⟩
  · show (2 : Nat) ≤ 125
    omega
  · show (32 : Nat) ≤ 32
    omega
  · show (32 : Nat) ≤ 32
    omega

/-- Claim C21: starting from a freshly constructed driver, on any hardware
state, after any sequence of the public configuration calls `setChannel`,
`setFrequency`, `setPayloadSize` (device-wide and per pipe),
`openReadingPipe`, `closePipe`, `reset` and `config`, with arbitrary
arguments, the cached channel is at most 125, the device-wide payload size is
at most 32 and the cached payload size of each of the six pipes is at most
32. -/
theorem config_calls_keep_cached_in_range (hw : Hardware) (calls : List ConfigCall) :
    (applyCalls calls (ctor hw)).channel ≤ 125 ∧
    (applyCalls calls (ctor hw)).payload_size ≤ 32 ∧
    ∀ i < NRF_MAX_PIPES, ((applyCalls calls (ctor hw)).pipes i).payload_size ≤ 32 :=
  applyCalls_cachedInRange calls (ctor hw) (ctor_cachedInRange hw)

/-- An instance of C21: after the sample sequence of calls with out-of-range
arguments on a fresh driver, the cached channel, the device-wide payload size
and the cached payload size of pipe 1 are in range. -/
theorem config_calls_keep_cached_in_range_witness :
    (applyCalls sampleCalls (ctor (Hardware.powerOn (fun _ => 0x0E)))).channel ≤ 125 ∧
    (applyCalls sampleCalls (ctor (Hardware.powerOn (fun _ => 0x0E)))).payload_size ≤ 32 ∧
    1 < NRF_MAX_PIPES ∧
    ((applyCalls sampleCalls (ctor (Hardware.powerOn (fun _ => 0x0E)))).pipes 1).payload_size
      ≤ 32 :=
  ⟨(config_calls_keep_cached_in_range (Hardware.powerOn (fun _ => 0x0E)) sampleCalls).1,
    (config_calls_keep_cached_in_range (Hardware.powerOn (fun _ => 0x0E)) sampleCalls).2.1,
    by decide,
    (config_calls_keep_cached_in_range (Hardware.powerOn (fun _ => 0x0E)) sampleCalls).2.2 1
      (by decide)⟩

end NRF24

end NRF24Driver
